import Mathlib

/-!
# Address lookup table program: shallow embedding

A byte-level model of the lookup-table program (`src/state.rs`,
`src/processor.rs`, `src/entrypoint.rs`).  Account data is a `List Nat`
of bytes; multi-byte fields are read and written little-endian at the
offsets induced by the `#[repr(C)]` layout of `LookupTableMeta` placed
at offset 4 of the buffer:

* bytes 0..4   discriminator (u32 LE)
* bytes 4..12  deactivation_slot (u64 LE)
* bytes 12..20 last_extended_slot (u64 LE)
* byte 20      last_extended_slot_start_index (u8)
* byte 21      authority_tag (u8)
* bytes 22..54 authority (32 bytes)
* bytes 54..56 padding (u16 LE)

Machine integers are `Nat` with explicit `% 2^64` where the Rust code
can wrap (release-mode `usize` arithmetic); checked and saturating
operations are modelled explicitly.  Fallible code returns a `PResult`,
whose `panic` constructor models a Rust panic/abort (out-of-bounds
slice indexing, `copy_from_slice` length mismatch), which is distinct
from the typed `ProgramError` channel.
-/

/-- The `ProgramError` variants used by this program; `Custom` stands for
errors surfaced by host primitives (e.g. a failed value transfer). -/
inductive ProgErr where
  | NotEnoughAccountKeys
  | MissingRequiredSignature
  | InvalidArgument
  | InvalidInstructionData
  | InvalidAccountOwner
  | Immutable
  | IncorrectAuthority
  | ArithmeticOverflow
  | Custom (code : Nat)
  deriving DecidableEq, Repr

/-- Outcome of a program call: success with the updated accounts,
a typed program error, or a panic/abort (outside the typed channel). -/
inductive PResult (α : Type) where
  | ok (a : α)
  | err (e : ProgErr)
  | panic
  deriving DecidableEq, Repr

/-! ## Little-endian bytes and buffer primitives -/

/-- Value of a little-endian byte list (least significant byte first). -/
def leVal : List Nat → Nat
  | [] => 0
  | x :: xs => x + 256 * leVal xs

/-- `sz`-byte little-endian encoding of `v` (truncating at `256 ^ sz`),
modelling Rust's `to_le_bytes`. -/
def natToLE : Nat → Nat → List Nat
  | _, 0 => []
  | v, sz + 1 => v % 256 :: natToLE (v / 256) sz

/-- Read the `sz`-byte little-endian field at byte offset `off`. -/
def readLE (d : List Nat) (off sz : Nat) : Nat :=
  leVal ((d.drop off).take sz)

/-- Overwrite the bytes of `d` starting at `off` with `src`, modelling
`d[off..off + src.len()].copy_from_slice(src)` for an in-bounds write. -/
def writeBytes (d : List Nat) (off : Nat) (src : List Nat) : List Nat :=
  d.take off ++ src ++ d.drop (off + src.length)

/-- `usize` modulus: the program targets a 64-bit machine. -/
def USIZE_MOD : Nat := 2 ^ 64

/-- `u64::MAX`, the sentinel meaning "never deactivated". -/
def U64_MAX : Nat := 2 ^ 64 - 1

/-- Release-mode wrapping subtraction on `usize`. -/
def wrapSub (a b : Nat) : Nat :=
  (a % USIZE_MOD + (USIZE_MOD - b % USIZE_MOD)) % USIZE_MOD

/-- Release-mode wrapping addition on `usize`. -/
def wrapAdd (a b : Nat) : Nat := (a + b) % USIZE_MOD

/-- Release-mode wrapping multiplication on `usize`. -/
def wrapMul (a b : Nat) : Nat := (a * b) % USIZE_MOD

/-- `usize::saturating_add`. -/
def satAdd (a b : Nat) : Nat := min (a + b) (USIZE_MOD - 1)

/-- `usize::saturating_mul`. -/
def satMul (a b : Nat) : Nat := min (a * b) (USIZE_MOD - 1)

/-- `checked_add` on a 64-bit integer: `none` on overflow. -/
def checkedAdd (a b : Nat) : Option Nat :=
  if a + b < USIZE_MOD then some (a + b) else none

/-! ## Field accessors (offsets from `#[repr(C)] LookupTableMeta` at base 4) -/

def LOOKUP_TABLE_MAX_ADDRESSES : Nat := 256

def LOOKUP_TABLE_META_SIZE : Nat := 56

def PUBKEY_BYTES : Nat := 32

/-- `meta.deactivation_slot` (bytes 4..12, u64 LE). -/
def deactivationSlot (d : List Nat) : Nat := readLE d 4 8

/-- `meta.last_extended_slot` (bytes 12..20, u64 LE). -/
def lastExtendedSlot (d : List Nat) : Nat := readLE d 12 8

/-- `meta.last_extended_slot_start_index` (byte 20). -/
def lastExtendedStartIndex (d : List Nat) : Nat := readLE d 20 1

/-- `meta.authority_tag` (byte 21). -/
def authorityTag (d : List Nat) : Nat := readLE d 21 1

/-- `meta.authority` (bytes 22..54). -/
def metaAuthority (d : List Nat) : List Nat := (d.drop 22).take 32

/-! ## State codec (`src/state.rs`) -/

/-- `serialize_new_lookup_table` from `src/state.rs`: writes the
discriminator `1u32` at bytes 0..4 and then the `LookupTableMeta`
fields, in source order, into the buffer. -/
def serialize_new_lookup_table (d : List Nat) (authority_key : List Nat) : List Nat :=
  let d := writeBytes d 0 (natToLE 1 4)
  let d := writeBytes d 4 (natToLE U64_MAX 8)
  let d := writeBytes d 12 (natToLE 0 8)
  let d := writeBytes d 20 [0]
  let d := writeBytes d 21 [1]
  let d := writeBytes d 22 authority_key
  writeBytes d 54 (natToLE 0 2)

/-! ## Accounts and environment -/

/-- The slice of an `AccountInfo` that this program observes or mutates. -/
structure AccountInfo where
  key : List Nat
  owner : List Nat
  lamports : Nat
  data : List Nat
  is_signer : Bool
  is_writable : Bool
  deriving DecidableEq, Repr

/-- The canonical slot-hashes sysvar identity (an opaque well-known
32-byte constant; its exact value is irrelevant to the program logic). -/
def SLOTHASHES_ID : List Nat := List.replicate 32 6

/-- Host environment a call runs against: the clock sysvar's slot, the
slot-hashes sysvar's window (most recent first), the rent calculator
`minimum_balance`, and the deterministic address derivation
`create_program_address seeds program_id`. -/
structure Env where
  clock : Nat
  slotHashes : List Nat
  minimum_balance : Nat → Nat
  create_program_address : List (List Nat) → List Nat → Except ProgErr (List Nat)

/-- `AccountInfo::resize`: truncate, or grow with zero fill. -/
def resizeData (d : List Nat) (n : Nat) : List Nat :=
  if n ≤ d.length then d.take n else d ++ List.replicate (n - d.length) 0

/-- Modelled from the spec: the host's recent-slot-history oracle
`position_of(slot) -> Option<offset>` within its window
(`SlotHashes::position`; the oracle itself is not under `src/`). -/
def slotPosition (window : List Nat) (slot : Nat) : Option Nat :=
  window.indexOf? slot

/-- Modelled from the spec: the combined
create-account-with-transfer-and-ownership-assignment host primitive
(`pinocchio_system::instructions::CreateAccount`, not under `src/`).
Moves `lamports` from `payer`, assigns `owner`, allocates `space`
zeroed bytes; fails if the payer cannot fund it. -/
def cpiCreateAccount (payer target : AccountInfo) (lamports space : Nat)
    (owner : List Nat) : Except ProgErr (AccountInfo × AccountInfo) :=
  if lamports ≤ payer.lamports then
    .ok ({ payer with lamports := payer.lamports - lamports },
         { target with owner := owner,
                       lamports := target.lamports + lamports,
                       data := List.replicate space 0 })
  else .error (.Custom 1)

/-- Modelled from the spec: the host's plain value-transfer primitive
(`pinocchio_system::instructions::Transfer`, not under `src/`); fails
if the source balance is insufficient. -/
def cpiTransfer (source dest : AccountInfo) (lamports : Nat) :
    Except ProgErr (AccountInfo × AccountInfo) :=
  if lamports ≤ source.lamports then
    .ok ({ source with lamports := source.lamports - lamports },
         { dest with lamports := dest.lamports + lamports })
  else .error (.Custom 1)

/-! ## Processor handlers (`src/processor.rs`) -/

/-- `process_create_lookup_table`: verify payer signature, the
slot-hashes identity, recentness of the supplied slot, and the derived
address; idempotent success if the table is already program-owned;
otherwise fund/allocate/assign via one combined CPI and write the
initial header. -/
def process_create_lookup_table (env : Env) (program_id : List Nat)
    (accounts : List AccountInfo) (untrusted_recent_slot : Nat) (bump_seed : Nat) :
    PResult (List AccountInfo) :=
  match accounts with
  | [lookup_table_info, authority_info, payer_info, slot_hashes_info, system_program] =>
    if !payer_info.is_signer then .err .MissingRequiredSignature
    else if slot_hashes_info.key ≠ SLOTHASHES_ID then .err .InvalidArgument
    else if !(env.slotHashes.contains untrusted_recent_slot) then .err .InvalidInstructionData
    else
      match env.create_program_address
          [authority_info.key, natToLE untrusted_recent_slot 8, [bump_seed]] program_id with
      | .error e => .err e
      | .ok derived_table_key =>
        if lookup_table_info.key ≠ derived_table_key then .err .InvalidArgument
        else if lookup_table_info.owner = program_id then
          .ok [lookup_table_info, authority_info, payer_info, slot_hashes_info, system_program]
        else
          let required_lamports :=
            max (env.minimum_balance LOOKUP_TABLE_META_SIZE) 1 - lookup_table_info.lamports
          match cpiCreateAccount payer_info lookup_table_info required_lamports
              LOOKUP_TABLE_META_SIZE program_id with
          | .error e => .err e
          | .ok (payer', table') =>
            .ok [{ table' with data := serialize_new_lookup_table table'.data authority_info.key },
                 authority_info, payer', slot_hashes_info, system_program]
  | _ => .err .NotEnoughAccountKeys

/-- `process_freeze_lookup_table`: ownership, signer, not-frozen,
authority-match, not-deactivating and non-empty checks (in source
order), then clear `authority_tag` and zero the authority. -/
def process_freeze_lookup_table (program_id : List Nat) (accounts : List AccountInfo) :
    PResult (List AccountInfo) :=
  match accounts with
  | [lookup_table_info, authority_info] =>
    if lookup_table_info.owner ≠ program_id then .err .InvalidAccountOwner
    else if !authority_info.is_signer then .err .MissingRequiredSignature
    else
      let data := lookup_table_info.data
      if authorityTag data = 0 then .err .Immutable
      else if metaAuthority data ≠ authority_info.key then .err .IncorrectAuthority
      else if deactivationSlot data ≠ U64_MAX then .err .InvalidArgument
      else if data.length ≤ LOOKUP_TABLE_META_SIZE ∨ (data.drop LOOKUP_TABLE_META_SIZE).isEmpty
        then .err .InvalidInstructionData
      else
        .ok [{ lookup_table_info with
                 data := writeBytes (writeBytes data 21 [0]) 22 (List.replicate 32 0) },
             authority_info]
  | _ => .err .NotEnoughAccountKeys

/-- `process_extend_lookup_table`: validation, slot bookkeeping, resize,
copy of the new address bytes, and rent top-up.  The `old ... len`
division uses release-mode wrapping subtraction on `usize`; the final
copy panics (outside the typed channel) on a slice-length mismatch,
as `copy_from_slice` does. -/
def process_extend_lookup_table (env : Env) (program_id : List Nat)
    (accounts : List AccountInfo) (new_addresses : List Nat) : PResult (List AccountInfo) :=
  match accounts with
  | [lookup_table_info, authority_info, payer_info, system_program] =>
    if lookup_table_info.owner ≠ program_id then .err .InvalidAccountOwner
    else if !authority_info.is_signer then .err .MissingRequiredSignature
    else
      let data := lookup_table_info.data
      if authorityTag data = 0 then .err .Immutable
      else if metaAuthority data ≠ authority_info.key then .err .IncorrectAuthority
      else if deactivationSlot data ≠ U64_MAX then .err .InvalidArgument
      else
        let old_table_addresses_len := wrapSub data.length LOOKUP_TABLE_META_SIZE / PUBKEY_BYTES
        if old_table_addresses_len ≥ LOOKUP_TABLE_MAX_ADDRESSES then .err .InvalidArgument
        else if new_addresses.isEmpty then .err .InvalidInstructionData
        else
          let new_table_addresses_len :=
            satAdd old_table_addresses_len (new_addresses.length / PUBKEY_BYTES)
          if new_table_addresses_len > LOOKUP_TABLE_MAX_ADDRESSES then .err .InvalidInstructionData
          else
            let data :=
              if env.clock ≠ lastExtendedSlot data then
                writeBytes (writeBytes data 12 (natToLE env.clock 8)) 20
                  [old_table_addresses_len % 256]
              else data
            match checkedAdd LOOKUP_TABLE_META_SIZE
                (satMul new_table_addresses_len PUBKEY_BYTES) with
            | none => .err .ArithmeticOverflow
            | some new_table_data_len =>
              if !lookup_table_info.is_writable then .err .Immutable
              else
                let data := resizeData data new_table_data_len
                match checkedAdd LOOKUP_TABLE_META_SIZE
                    (satMul old_table_addresses_len PUBKEY_BYTES) with
                | none => .err .ArithmeticOverflow
                | some offset =>
                  if offset ≥ data.length then .err .InvalidArgument
                  else if data.length - offset ≠ new_addresses.length then .panic
                  else
                    let data := writeBytes data offset new_addresses
                    let required_lamports :=
                      max (env.minimum_balance new_table_data_len) 1
                        - lookup_table_info.lamports
                    if required_lamports > 0 then
                      if !payer_info.is_signer then .err .MissingRequiredSignature
                      else
                        match cpiTransfer payer_info
                            { lookup_table_info with data := data } required_lamports with
                        | .error e => .err e
                        | .ok (payer', table') =>
                          .ok [table', authority_info, payer', system_program]
                    else
                      .ok [{ lookup_table_info with data := data },
                           authority_info, payer_info, system_program]
  | _ => .err .NotEnoughAccountKeys

/-- `process_deactivate_lookup_table`: ownership, signer, not-frozen,
authority-match, not-already-deactivating checks, then stamp
`deactivation_slot` with the clock's slot. -/
def process_deactivate_lookup_table (env : Env) (program_id : List Nat)
    (accounts : List AccountInfo) : PResult (List AccountInfo) :=
  match accounts with
  | [lookup_table_info, authority_info] =>
    if lookup_table_info.owner ≠ program_id then .err .InvalidAccountOwner
    else if !authority_info.is_signer then .err .MissingRequiredSignature
    else
      let data := lookup_table_info.data
      if authorityTag data = 0 then .err .Immutable
      else if metaAuthority data ≠ authority_info.key then .err .IncorrectAuthority
      else if deactivationSlot data ≠ U64_MAX then .err .InvalidArgument
      else
        .ok [{ lookup_table_info with data := writeBytes data 4 (natToLE env.clock 8) },
             authority_info]
  | _ => .err .NotEnoughAccountKeys

/-- `process_close_lookup_table`: validation including the deactivation
cool-down (same-slot and slot-hashes-window checks), then drain the
table's balance to the recipient, shrink to zero length and zero the
table's balance.  The slot-hashes account identity check models
`SlotHashes::from_account_info`. -/
def process_close_lookup_table (env : Env) (program_id : List Nat)
    (accounts : List AccountInfo) : PResult (List AccountInfo) :=
  match accounts with
  | [lookup_table_info, authority_info, recipient_info, slot_hashes_info] =>
    if lookup_table_info.owner ≠ program_id then .err .InvalidAccountOwner
    else if !authority_info.is_signer then .err .MissingRequiredSignature
    else if lookup_table_info.key = recipient_info.key then .err .InvalidArgument
    else
      let data := lookup_table_info.data
      if authorityTag data = 0 then .err .Immutable
      else if metaAuthority data ≠ authority_info.key then .err .IncorrectAuthority
      else if deactivationSlot data = U64_MAX then .err .InvalidArgument
      else if deactivationSlot data = env.clock then .err .InvalidArgument
      else if slot_hashes_info.key ≠ SLOTHASHES_ID then .err .InvalidArgument
      else if (slotPosition env.slotHashes (deactivationSlot data)).isSome then
        .err .InvalidArgument
      else
        match checkedAdd lookup_table_info.lamports recipient_info.lamports with
        | none => .err .ArithmeticOverflow
        | some new_recipient_lamports =>
          if !recipient_info.is_writable then .err .Immutable
          else if !lookup_table_info.is_writable then .err .Immutable
          else
            .ok [{ lookup_table_info with data := resizeData data 0, lamports := 0 },
                 authority_info,
                 { recipient_info with lamports := new_recipient_lamports },
                 slot_hashes_info]
  | _ => .err .NotEnoughAccountKeys

/-! ## Dispatch (`src/entrypoint.rs`) -/

/-- `process_instruction`: decode the 4-byte LE discriminator and route.
Rust's `instruction_data[a..b]` and `instruction_data[12]` panic when
the payload is shorter than the sliced range, before the fallible
`try_into` conversion can produce a typed error; those indexings are
the `.panic` branches.  The Extend arm's `12 + address_len * 32` is
release-mode wrapping `usize` arithmetic. -/
def process_instruction (env : Env) (program_id : List Nat)
    (accounts : List AccountInfo) (instruction_data : List Nat) :
    PResult (List AccountInfo) :=
  if instruction_data.length < 4 then .panic
  else
    match readLE instruction_data 0 4 with
    | 0 =>
      if instruction_data.length < 12 then .panic
      else
        let untrusted_recent_slot := readLE instruction_data 4 8
        if instruction_data.length < 13 then .panic
        else
          let bump_seed := instruction_data.getD 12 0
          process_create_lookup_table env program_id accounts untrusted_recent_slot bump_seed
    | 1 => process_freeze_lookup_table program_id accounts
    | 2 =>
      if instruction_data.length < 12 then .panic
      else
        let address_len := readLE instruction_data 4 8
        let addresses_end := wrapAdd 12 (wrapMul address_len 32)
        if instruction_data.length ≠ addresses_end then .err .InvalidInstructionData
        else
          process_extend_lookup_table env program_id accounts
            ((instruction_data.drop 12).take (addresses_end - 12))
    | 3 => process_deactivate_lookup_table env program_id accounts
    | 4 => process_close_lookup_table env program_id accounts
    | _ => .err .InvalidInstructionData

/-! ## Concrete fixtures for witness instantiations -/

def pidW : List Nat := List.replicate 32 9

def authW : AccountInfo :=
  { key := List.replicate 32 3, owner := List.replicate 32 0, lamports := 0, data := [],
    is_signer := true, is_writable := false }

def tableKeyW : List Nat := List.replicate 32 7

def payerW : AccountInfo :=
  { key := List.replicate 32 5, owner := List.replicate 32 0, lamports := 1000, data := [],
    is_signer := true, is_writable := true }

def shW : AccountInfo :=
  { key := SLOTHASHES_ID, owner := [], lamports := 0, data := [], is_signer := false,
    is_writable := false }

def sysW : AccountInfo :=
  { key := List.replicate 32 1, owner := [], lamports := 0, data := [], is_signer := false,
    is_writable := false }

def envW : Env :=
  { clock := 10, slotHashes := [9, 8, 7], minimum_balance := fun n => n,
    create_program_address := fun _ _ => .ok tableKeyW }

/-- A well-formed table record: discriminator 1, the given deactivation
slot and authority tag, authority `auth`, then `entries`. -/
def mkTableData (auth : List Nat) (deact tag : Nat) (entries : List Nat) : List Nat :=
  [1, 0, 0, 0] ++ natToLE deact 8 ++ natToLE 0 8 ++ [0] ++ [tag] ++ auth ++ [0, 0] ++ entries

/-- A program-owned table account holding `mkTableData` state. -/
def tableW (deact tag : Nat) (entries : List Nat) : AccountInfo :=
  { key := tableKeyW, owner := pidW, lamports := 100,
    data := mkTableData (List.replicate 32 3) deact tag entries,
    is_signer := false, is_writable := true }

/-- A not-yet-created table account (allocation path of Create). -/
def tableNewW : AccountInfo :=
  { key := tableKeyW, owner := List.replicate 32 0, lamports := 0, data := [],
    is_signer := false, is_writable := true }

/-- A table account already owned by the program (idempotent Create path). -/
def tableOwnedW : AccountInfo :=
  { tableNewW with owner := pidW }

/-- An authority account whose key does not match the table's stored
authority. -/
def wrongAuthW : AccountInfo :=
  { authW with key := List.replicate 32 4 }

/-- A rent environment whose `minimum_balance` is identically zero. -/
def envZW : Env :=
  { envW with minimum_balance := fun _ => 0 }

/-- An active empty table with zero balance. -/
def tableZW : AccountInfo :=
  { key := tableKeyW, owner := pidW, lamports := 0,
    data := mkTableData (List.replicate 32 3) U64_MAX 1 [],
    is_signer := false, is_writable := true }

/-- A writable recipient account for Close. -/
def recipW : AccountInfo :=
  { key := List.replicate 32 2, owner := [], lamports := 7, data := [],
    is_signer := false, is_writable := true }

/-- Result table of the witness Extend run. -/
def extTabW : AccountInfo :=
  { key := tableKeyW, owner := pidW, lamports := 120,
    data := [1, 0, 0, 0] ++ List.replicate 8 255 ++ natToLE 10 8 ++ [1, 1]
      ++ List.replicate 32 3 ++ [0, 0] ++ List.replicate 32 11 ++ List.replicate 32 42,
    is_signer := false, is_writable := true }

/-- Result table of the witness Freeze run. -/
def frzTabW : AccountInfo :=
  { key := tableKeyW, owner := pidW, lamports := 100,
    data := [1, 0, 0, 0] ++ List.replicate 8 255 ++ List.replicate 8 0 ++ [0, 0]
      ++ List.replicate 32 0 ++ [0, 0] ++ List.replicate 32 11,
    is_signer := false, is_writable := true }

/-- Result table of the witness Deactivate run. -/
def deaTabW : AccountInfo :=
  { key := tableKeyW, owner := pidW, lamports := 100,
    data := [1, 0, 0, 0] ++ natToLE 10 8 ++ List.replicate 8 0 ++ [0, 1]
      ++ List.replicate 32 3 ++ [0, 0] ++ List.replicate 32 11,
    is_signer := false, is_writable := true }

/-- Erase the discriminator view of the head (table) account: on a
successful result, drop bytes 0..4 of its data; errors and panics are
unchanged. -/
def scrubDisc : PResult (List AccountInfo) → PResult (List AccountInfo)
  | .ok (u :: rest) => .ok ({ u with data := u.data.drop 4 } :: rest)
  | r => r

/-- The non-discriminator tail of a concrete deactivating table record. -/
def tailW : List Nat :=
  natToLE 5 8 ++ natToLE 0 8 ++ [0] ++ [1] ++ List.replicate 32 3 ++ [0, 0]

/-! ## Byte-buffer lemmas -/

theorem natToLE_length (v n : Nat) : (natToLE v n).length = n := by
  induction n generalizing v with
  | zero => rfl
  | succ n ih => simp [natToLE, ih]

theorem leVal_natToLE (v n : Nat) : leVal (natToLE v n) = v % 256 ^ n := by
  induction n generalizing v with
  | zero => simp [natToLE, leVal, Nat.mod_one]
  | succ n ih =>
    rw [natToLE, leVal, ih, pow_succ, mul_comm (256 ^ n) 256, Nat.mod_mul]

theorem writeBytes_length (d src : List Nat) (off : Nat)
    (h : off + src.length ≤ d.length) : (writeBytes d off src).length = d.length := by
  simp [writeBytes]
  omega

theorem writeBytes_take (d src : List Nat) (off : Nat) (h : off ≤ d.length) :
    (writeBytes d off src).take off = d.take off := by
  rw [writeBytes, List.take_append_of_le_length (by simp; omega),
    List.take_append_of_le_length (by simp; omega), List.take_take, Nat.min_self]

theorem writeBytes_drop_mid (d src : List Nat) (off : Nat) (h : off ≤ d.length) :
    (writeBytes d off src).drop off = src ++ d.drop (off + src.length) := by
  rw [writeBytes, List.drop_append_of_le_length (by simp; omega),
    List.drop_append_of_le_length (by simp; omega), List.drop_take]
  simp

theorem writeBytes_drop_after (d src : List Nat) (off : Nat) (h : off ≤ d.length) :
    (writeBytes d off src).drop (off + src.length) = d.drop (off + src.length) := by
  calc (writeBytes d off src).drop (off + src.length)
      = ((writeBytes d off src).drop off).drop src.length := by rw [List.drop_drop]
    _ = (src ++ d.drop (off + src.length)).drop src.length := by
        rw [writeBytes_drop_mid d src off h]
    _ = d.drop (off + src.length) := List.drop_left ..

theorem writeBytes_drop_ge (d src : List Nat) (off off' : Nat)
    (h1 : off + src.length ≤ off') (h2 : off ≤ d.length) :
    (writeBytes d off src).drop off' = d.drop off' := by
  obtain ⟨k, rfl⟩ : ∃ k, off' = off + src.length + k := ⟨off' - (off + src.length), by omega⟩
  calc (writeBytes d off src).drop (off + src.length + k)
      = ((writeBytes d off src).drop (off + src.length)).drop k := by rw [List.drop_drop]
    _ = (d.drop (off + src.length)).drop k := by rw [writeBytes_drop_after d src off h2]
    _ = d.drop (off + src.length + k) := by rw [List.drop_drop]

theorem writeBytes_take_le (d src : List Nat) (off off' : Nat)
    (h1 : off' ≤ off) (h2 : off ≤ d.length) :
    (writeBytes d off src).take off' = d.take off' := by
  rw [← Nat.min_eq_left h1, ← List.take_take, writeBytes_take d src off h2,
    List.take_take, Nat.min_eq_left h1]

theorem seg_writeBytes_self (d src : List Nat) (off : Nat) (h : off ≤ d.length) :
    ((writeBytes d off src).drop off).take src.length = src := by
  rw [writeBytes_drop_mid d src off h, List.take_left]

theorem seg_writeBytes_before (d src : List Nat) (off off' sz : Nat)
    (h1 : off' + sz ≤ off) (h2 : off ≤ d.length) :
    ((writeBytes d off src).drop off').take sz = (d.drop off').take sz := by
  rw [List.take_drop, List.take_drop]
  congr 1
  rw [writeBytes_take_le d src off (off' + sz) h1 h2]

theorem readLE_writeBytes_self (d src : List Nat) (off : Nat) (h : off ≤ d.length) :
    readLE (writeBytes d off src) off src.length = leVal src := by
  rw [readLE, seg_writeBytes_self d src off h]

theorem readLE_writeBytes_before (d src : List Nat) (off off' sz : Nat)
    (h1 : off' + sz ≤ off) (h2 : off ≤ d.length) :
    readLE (writeBytes d off src) off' sz = readLE d off' sz := by
  rw [readLE, readLE, seg_writeBytes_before d src off off' sz h1 h2]

theorem readLE_writeBytes_after (d src : List Nat) (off off' sz : Nat)
    (h1 : off + src.length ≤ off') (h2 : off ≤ d.length) :
    readLE (writeBytes d off src) off' sz = readLE d off' sz := by
  rw [readLE, readLE, writeBytes_drop_ge d src off off' h1 h2]

theorem writeBytes_exact (A rest src : List Nat) (off : Nat) (h : A.length = off) :
    writeBytes (A ++ rest) off src = A ++ src ++ rest.drop src.length := by
  rw [writeBytes, List.take_left' h]
  congr 1
  rw [← h, List.drop_append]

/-- The initial header image: `serialize_new_lookup_table` on a fresh
56-byte zeroed buffer produces exactly the documented layout. -/
theorem serialize_layout (auth : List Nat) (h : auth.length = 32) :
    serialize_new_lookup_table (List.replicate 56 0) auth =
      [1, 0, 0, 0] ++ List.replicate 8 255 ++ List.replicate 8 0 ++ [0, 1] ++ auth ++ [0, 0] := by
  have h5 : writeBytes (writeBytes (writeBytes (writeBytes (writeBytes
      (List.replicate 56 0) 0 (natToLE 1 4)) 4 (natToLE U64_MAX 8)) 12 (natToLE 0 8))
        20 [0]) 21 [1]
      = ([1, 0, 0, 0] ++ List.replicate 8 255 ++ List.replicate 8 0 ++ [0, 1])
        ++ List.replicate 34 0 := by decide
  simp only [serialize_new_lookup_table]
  rw [h5, writeBytes_exact _ _ auth 22 (by decide), h]
  rw [show (List.replicate 34 0).drop 32 = [0, 0] from by decide]
  rw [show natToLE 0 2 = [0, 0] from by decide]
  rw [writeBytes_exact _ _ [0, 0] 54 (by simp [h])]
  simp [List.append_assoc]

/-- C1: every successful Create that takes the allocation path (table
not yet owned by the program) leaves the record's byte buffer as
exactly 56 bytes: discriminator `1u32` LE, `deactivation_slot`
`u64::MAX` LE, `last_extended_slot` 0, start index 0, authority tag 1,
the supplied authority key, and zero padding. -/
theorem create_allocation_writes_initial_header (env : Env) (program_id : List Nat)
    (lt auth payer sh sys : AccountInfo) (slot bump : Nat) (res : List AccountInfo)
    (hauth : auth.key.length = 32)
    (hown : lt.owner ≠ program_id)
    (h : process_create_lookup_table env program_id [lt, auth, payer, sh, sys] slot bump
          = .ok res) :
    ∃ t rest, res = t :: rest ∧
      t.data = [1, 0, 0, 0] ++ List.replicate 8 255 ++ List.replicate 8 0 ++ [0, 1]
        ++ auth.key ++ [0, 0] ∧
      t.data.length = 56 := by
  simp only [process_create_lookup_table] at h
  split at h
  case isTrue => exact PResult.noConfusion h
  split at h
  case isTrue => exact PResult.noConfusion h
  split at h
  case isTrue => exact PResult.noConfusion h
  split at h
  case h_1 e heq => exact PResult.noConfusion h
  case h_2 derived heq =>
  split at h
  case isTrue => exact PResult.noConfusion h
  case isFalse hkey =>
  split at h
  case h_1 e heq2 => exact PResult.noConfusion h
  case h_2 payer2 table2 heq2 =>
  simp only [cpiCreateAccount] at heq2
  split at heq2
  case isFalse => exact Except.noConfusion heq2
  case isTrue hfund =>
  simp only [Except.ok.injEq, Prod.mk.injEq] at heq2
  obtain ⟨hp, ht⟩ := heq2
  injection h with hres
  refine ⟨_, _, hres.symm, ?_, ?_⟩
  · show serialize_new_lookup_table table2.data auth.key = _
    rw [← ht]
    dsimp only [LOOKUP_TABLE_META_SIZE]
    exact serialize_layout auth.key hauth
  · show (serialize_new_lookup_table table2.data auth.key).length = 56
    rw [← ht]
    dsimp only [LOOKUP_TABLE_META_SIZE]
    rw [serialize_layout auth.key hauth]
    simp [hauth]

/-- Witness for C1 at a concrete allocation-path Create. -/
theorem create_allocation_writes_initial_header_witness :
    authW.key.length = 32 ∧ tableNewW.owner ≠ pidW ∧
    (∃ t rest,
      [{ tableNewW with
           owner := pidW
           lamports := 56
           data := [1, 0, 0, 0] ++ List.replicate 8 255 ++ List.replicate 8 0 ++ [0, 1]
             ++ List.replicate 32 3 ++ [0, 0] },
        authW, { payerW with lamports := 944 }, shW, sysW] = t :: rest ∧
      t.data = [1, 0, 0, 0] ++ List.replicate 8 255 ++ List.replicate 8 0 ++ [0, 1]
        ++ authW.key ++ [0, 0] ∧
      t.data.length = 56) :=
  ⟨by decide, by decide,
    create_allocation_writes_initial_header envW pidW tableNewW authW payerW shW sysW 9 255 _
      (by decide) (by decide) (by decide)⟩

/-- C4: Create is idempotent on retry: when the payer-signature,
oracle-identity, recent-slot and derived-address checks pass and the
target account is already owned by this program, Create returns
success immediately with the accounts unchanged (no allocation, no
transfer, no write). -/
theorem create_idempotent_retry (env : Env) (program_id : List Nat)
    (lt auth payer sh sys : AccountInfo) (slot bump : Nat)
    (h1 : payer.is_signer = true)
    (h2 : sh.key = SLOTHASHES_ID)
    (h3 : env.slotHashes.contains slot = true)
    (h4 : env.create_program_address [auth.key, natToLE slot 8, [bump]] program_id
            = .ok lt.key)
    (h5 : lt.owner = program_id) :
    process_create_lookup_table env program_id [lt, auth, payer, sh, sys] slot bump
      = .ok [lt, auth, payer, sh, sys] := by
  simp [process_create_lookup_table, h1, h2, h4, h5]
  simpa using h3

/-- Witness for C4 at a concrete already-owned Create retry. -/
theorem create_idempotent_retry_witness :
    payerW.is_signer = true ∧ shW.key = SLOTHASHES_ID ∧
    envW.slotHashes.contains 9 = true ∧
    envW.create_program_address [authW.key, natToLE 9 8, [255]] pidW = .ok tableOwnedW.key ∧
    tableOwnedW.owner = pidW ∧
    process_create_lookup_table envW pidW [tableOwnedW, authW, payerW, shW, sysW] 9 255
      = .ok [tableOwnedW, authW, payerW, shW, sysW] :=
  ⟨by decide, by decide, by decide, rfl, by decide,
    create_idempotent_retry envW pidW tableOwnedW authW payerW shW sysW 9 255
      (by decide) (by decide) (by decide) rfl (by decide)⟩

/-- C7: a successful Deactivate stamps `deactivation_slot` with exactly
the clock's slot and changes no other byte (prefix 0..4 and suffix
12.. are untouched, length preserved); a second Deactivate on an
already-deactivating record fails with the argument error. -/
theorem deactivate_stamps_clock_slot (env : Env) (program_id : List Nat)
    (lt auth : AccountInfo) (res : List AccountInfo)
    (hlen : 56 ≤ lt.data.length) (hclock : env.clock < 2 ^ 64) :
    (process_deactivate_lookup_table env program_id [lt, auth] = .ok res →
      res = [{ lt with data := writeBytes lt.data 4 (natToLE env.clock 8) }, auth] ∧
      deactivationSlot (writeBytes lt.data 4 (natToLE env.clock 8)) = env.clock ∧
      (writeBytes lt.data 4 (natToLE env.clock 8)).take 4 = lt.data.take 4 ∧
      (writeBytes lt.data 4 (natToLE env.clock 8)).drop 12 = lt.data.drop 12 ∧
      (writeBytes lt.data 4 (natToLE env.clock 8)).length = lt.data.length) ∧
    (lt.owner = program_id → auth.is_signer = true → ¬ authorityTag lt.data = 0 →
      metaAuthority lt.data = auth.key → deactivationSlot lt.data ≠ U64_MAX →
      process_deactivate_lookup_table env program_id [lt, auth]
        = .err .InvalidArgument) := by
  constructor
  · intro h
    simp only [process_deactivate_lookup_table] at h
    split at h
    case isTrue => exact PResult.noConfusion h
    split at h
    case isTrue => exact PResult.noConfusion h
    split at h
    case isTrue => exact PResult.noConfusion h
    split at h
    case isTrue => exact PResult.noConfusion h
    split at h
    case isTrue => exact PResult.noConfusion h
    injection h with hres
    refine ⟨hres.symm, ?_, ?_, ?_, ?_⟩
    · have h8 : (natToLE env.clock 8).length = 8 := natToLE_length _ _
      have hs := readLE_writeBytes_self lt.data (natToLE env.clock 8) 4 (by omega)
      rw [h8] at hs
      rw [deactivationSlot, hs, leVal_natToLE,
        show (256 : Nat) ^ 8 = 2 ^ 64 from by norm_num, Nat.mod_eq_of_lt hclock]
    · exact writeBytes_take_le _ _ 4 4 le_rfl (by omega)
    · exact writeBytes_drop_ge _ _ 4 12 (by simp [natToLE_length]) (by omega)
    · exact writeBytes_length _ _ 4 (by simp [natToLE_length]; omega)
  · intro h1 h2 h3 h4 h5
    simp [process_deactivate_lookup_table, h1, h2, h3, h4, h5]

/-- Witness for C7 on a concrete active table at clock slot 10. -/
theorem deactivate_stamps_clock_slot_witness :
    56 ≤ (tableW U64_MAX 1 []).data.length ∧ envW.clock < 2 ^ 64 ∧
    ((process_deactivate_lookup_table envW pidW [tableW U64_MAX 1 [], authW]
        = .ok [{ tableW U64_MAX 1 [] with data := writeBytes (tableW U64_MAX 1 []).data 4 (natToLE envW.clock 8) }, authW] →
      [{ tableW U64_MAX 1 [] with data := writeBytes (tableW U64_MAX 1 []).data 4 (natToLE envW.clock 8) }, authW]
        = [{ tableW U64_MAX 1 [] with data := writeBytes (tableW U64_MAX 1 []).data 4 (natToLE envW.clock 8) }, authW] ∧
      deactivationSlot (writeBytes (tableW U64_MAX 1 []).data 4 (natToLE envW.clock 8)) = envW.clock ∧
      (writeBytes (tableW U64_MAX 1 []).data 4 (natToLE envW.clock 8)).take 4 = (tableW U64_MAX 1 []).data.take 4 ∧
      (writeBytes (tableW U64_MAX 1 []).data 4 (natToLE envW.clock 8)).drop 12 = (tableW U64_MAX 1 []).data.drop 12 ∧
      (writeBytes (tableW U64_MAX 1 []).data 4 (natToLE envW.clock 8)).length = (tableW U64_MAX 1 []).data.length) ∧
    ((tableW U64_MAX 1 []).owner = pidW → authW.is_signer = true →
      ¬ authorityTag (tableW U64_MAX 1 []).data = 0 →
      metaAuthority (tableW U64_MAX 1 []).data = authW.key →
      deactivationSlot (tableW U64_MAX 1 []).data ≠ U64_MAX →
      process_deactivate_lookup_table envW pidW [tableW U64_MAX 1 [], authW]
        = .err .InvalidArgument)) :=
  ⟨by decide, by decide,
    deactivate_stamps_clock_slot envW pidW (tableW U64_MAX 1 []) authW
      [{ tableW U64_MAX 1 [] with data := writeBytes (tableW U64_MAX 1 []).data 4 (natToLE envW.clock 8) }, authW]
      (by decide) (by decide)⟩

/-- C5 counterexample: on a record that is already deactivating
(`deactivation_slot` = 5 ≠ MAX) presented with a mismatched authority
key, Freeze fails with the authority error — the source checks the
authority key before the deactivating state — refuting the claimed
order (argument error first). -/
theorem freeze_check_order_counterexample :
    process_freeze_lookup_table pidW [tableW 5 1 [], wrongAuthW]
      = .err .IncorrectAuthority ∧
    ProgErr.IncorrectAuthority ≠ ProgErr.InvalidArgument := by
  exact ⟨by decide, by decide⟩

/-- C5 amended: Freeze performs its checks in this source order:
not program-owned → ownership error; authority not a signer →
signature error; already frozen → immutable error; authority key
mismatch → authority error; already deactivating → argument error;
empty address list → instruction-data error.  In particular a record
that is both deactivating and presented with a mismatched authority
fails with the authority error. -/
theorem freeze_checks_source_order (program_id : List Nat) (lt auth : AccountInfo) :
    (lt.owner ≠ program_id →
      process_freeze_lookup_table program_id [lt, auth] = .err .InvalidAccountOwner) ∧
    (lt.owner = program_id → auth.is_signer = false →
      process_freeze_lookup_table program_id [lt, auth] = .err .MissingRequiredSignature) ∧
    (lt.owner = program_id → auth.is_signer = true → authorityTag lt.data = 0 →
      process_freeze_lookup_table program_id [lt, auth] = .err .Immutable) ∧
    (lt.owner = program_id → auth.is_signer = true → ¬ authorityTag lt.data = 0 →
      metaAuthority lt.data ≠ auth.key →
      process_freeze_lookup_table program_id [lt, auth] = .err .IncorrectAuthority) ∧
    (lt.owner = program_id → auth.is_signer = true → ¬ authorityTag lt.data = 0 →
      metaAuthority lt.data = auth.key → deactivationSlot lt.data ≠ U64_MAX →
      process_freeze_lookup_table program_id [lt, auth] = .err .InvalidArgument) ∧
    (lt.owner = program_id → auth.is_signer = true → ¬ authorityTag lt.data = 0 →
      metaAuthority lt.data = auth.key → deactivationSlot lt.data = U64_MAX →
      lt.data.length ≤ LOOKUP_TABLE_META_SIZE →
      process_freeze_lookup_table program_id [lt, auth]
        = .err .InvalidInstructionData) := by
  refine ⟨?_, ?_, ?_, ?_, ?_, ?_⟩
  · intro h1
    simp [process_freeze_lookup_table, h1]
  · intro h1 h2
    simp [process_freeze_lookup_table, h1, h2]
  · intro h1 h2 h3
    simp [process_freeze_lookup_table, h1, h2, h3]
  · intro h1 h2 h3 h4
    simp [process_freeze_lookup_table, h1, h2, h3, h4]
  · intro h1 h2 h3 h4 h5
    simp [process_freeze_lookup_table, h1, h2, h3, h4, h5]
  · intro h1 h2 h3 h4 h5 h6
    simp [process_freeze_lookup_table, h1, h2, h3, h4, h5, h6]

/-- Witness for the amended C5 at a deactivating table with a
mismatched authority. -/
theorem freeze_checks_source_order_witness :
    ((tableW 5 1 []).owner ≠ pidW →
      process_freeze_lookup_table pidW [tableW 5 1 [], wrongAuthW]
        = .err .InvalidAccountOwner) ∧
    ((tableW 5 1 []).owner = pidW → wrongAuthW.is_signer = false →
      process_freeze_lookup_table pidW [tableW 5 1 [], wrongAuthW]
        = .err .MissingRequiredSignature) ∧
    ((tableW 5 1 []).owner = pidW → wrongAuthW.is_signer = true →
      authorityTag (tableW 5 1 []).data = 0 →
      process_freeze_lookup_table pidW [tableW 5 1 [], wrongAuthW] = .err .Immutable) ∧
    ((tableW 5 1 []).owner = pidW → wrongAuthW.is_signer = true →
      ¬ authorityTag (tableW 5 1 []).data = 0 →
      metaAuthority (tableW 5 1 []).data ≠ wrongAuthW.key →
      process_freeze_lookup_table pidW [tableW 5 1 [], wrongAuthW]
        = .err .IncorrectAuthority) ∧
    ((tableW 5 1 []).owner = pidW → wrongAuthW.is_signer = true →
      ¬ authorityTag (tableW 5 1 []).data = 0 →
      metaAuthority (tableW 5 1 []).data = wrongAuthW.key →
      deactivationSlot (tableW 5 1 []).data ≠ U64_MAX →
      process_freeze_lookup_table pidW [tableW 5 1 [], wrongAuthW]
        = .err .InvalidArgument) ∧
    ((tableW 5 1 []).owner = pidW → wrongAuthW.is_signer = true →
      ¬ authorityTag (tableW 5 1 []).data = 0 →
      metaAuthority (tableW 5 1 []).data = wrongAuthW.key →
      deactivationSlot (tableW 5 1 []).data = U64_MAX →
      (tableW 5 1 []).data.length ≤ LOOKUP_TABLE_META_SIZE →
      process_freeze_lookup_table pidW [tableW 5 1 [], wrongAuthW]
        = .err .InvalidInstructionData) :=
  freeze_checks_source_order pidW (tableW 5 1 []) wrongAuthW

/-- C8: the dispatcher panics (aborts outside the typed error channel)
on payloads too short for their shape, instead of returning the typed
instruction-data error: an empty payload (discriminator slice), a
4-byte Create payload and a 12-byte Create payload (slot slice /
bump index), and a 4-byte Extend payload (length slice). -/
theorem dispatch_short_payload_panics :
    process_instruction envW pidW [] [] = .panic ∧
    process_instruction envW pidW [] [0, 0, 0, 0] = .panic ∧
    process_instruction envW pidW [] [0, 0, 0, 0, 9, 0, 0, 0, 0, 0, 0, 0] = .panic ∧
    process_instruction envW pidW [] [2, 0, 0, 0] = .panic :=
  ⟨by decide, by decide, by decide, by decide⟩

/-- C6 counterexample: with a rent calculator whose minimum for the new
size is 0 and a table balance of 0, a successful Extend still
transfers 1 lamport from the payer (the code tops up to
`max(minimum, 1)`), although the balance is not strictly below the
rent-exempt minimum — refuting the claimed "if and only if". -/
theorem extend_rent_topup_counterexample :
    process_extend_lookup_table envZW pidW [tableZW, authW, payerW, sysW]
        (List.replicate 32 42)
      = .ok [{ tableZW with
                 data := [1, 0, 0, 0] ++ List.replicate 8 255 ++ natToLE 10 8 ++ [0, 1]
                   ++ List.replicate 32 3 ++ [0, 0] ++ List.replicate 32 42
                 lamports := 1 },
             authW, { payerW with lamports := 999 }, sysW] ∧
    envZW.minimum_balance 88 = 0 ∧
    ¬ tableZW.lamports < envZW.minimum_balance 88 :=
  ⟨by decide, rfl, by decide⟩

theorem resizeData_length (d : List Nat) (n : Nat) : (resizeData d n).length = n := by
  unfold resizeData
  split <;> simp <;> omega

/-- Evaluation of Extend up to the final rent top-up check, under the
validation and capacity hypotheses. -/
theorem extend_eval (env : Env) (program_id : List Nat)
    (lt auth payer sys : AccountInfo) (new_addresses : List Nat)
    (h1 : lt.owner = program_id)
    (h2 : auth.is_signer = true)
    (h3 : ¬ authorityTag lt.data = 0)
    (h4 : metaAuthority lt.data = auth.key)
    (h5 : deactivationSlot lt.data = U64_MAX)
    (hold : wrapSub lt.data.length 56 / 32 < 256)
    (hmul : new_addresses.length % 32 = 0)
    (hpos : new_addresses ≠ [])
    (hcap : wrapSub lt.data.length 56 / 32 + new_addresses.length / 32 ≤ 256)
    (h9 : lt.is_writable = true) :
    process_extend_lookup_table env program_id [lt, auth, payer, sys] new_addresses
      = if max (env.minimum_balance (56 + (wrapSub lt.data.length 56 / 32 + new_addresses.length / 32) * 32)) 1 - lt.lamports > 0 then
          (if (!payer.is_signer) = true then .err .MissingRequiredSignature
           else
             match cpiTransfer payer { lt with data := writeBytes (resizeData (if env.clock ≠ lastExtendedSlot lt.data then
         writeBytes (writeBytes lt.data 12 (natToLE env.clock 8)) 20 [wrapSub lt.data.length 56 / 32 % 256]
       else lt.data) (56 + (wrapSub lt.data.length 56 / 32 + new_addresses.length / 32) * 32)) (56 + (wrapSub lt.data.length 56 / 32) * 32) new_addresses } (max (env.minimum_balance (56 + (wrapSub lt.data.length 56 / 32 + new_addresses.length / 32) * 32)) 1 - lt.lamports) with
             | .error e => .err e
             | .ok (payer2, table2) => .ok [table2, auth, payer2, sys])
        else .ok [{ lt with data := writeBytes (resizeData (if env.clock ≠ lastExtendedSlot lt.data then
         writeBytes (writeBytes lt.data 12 (natToLE env.clock 8)) 20 [wrapSub lt.data.length 56 / 32 % 256]
       else lt.data) (56 + (wrapSub lt.data.length 56 / 32 + new_addresses.length / 32) * 32)) (56 + (wrapSub lt.data.length 56 / 32) * 32) new_addresses }, auth, payer, sys] := by
  have hk1 : 1 ≤ new_addresses.length / 32 := by
    have hz : new_addresses.length ≠ 0 := by
      intro hz
      exact hpos (List.eq_nil_of_length_eq_zero hz)
    omega
  have hsat : satAdd (wrapSub lt.data.length 56 / 32) (new_addresses.length / 32) = wrapSub lt.data.length 56 / 32 + new_addresses.length / 32 := by
    unfold satAdd USIZE_MOD
    omega
  have hsm2 : satMul (wrapSub lt.data.length 56 / 32) 32 = (wrapSub lt.data.length 56 / 32) * 32 := by
    unfold satMul USIZE_MOD
    omega
  have hsm : satMul (wrapSub lt.data.length 56 / 32 + new_addresses.length / 32) 32 = (wrapSub lt.data.length 56 / 32 + new_addresses.length / 32) * 32 := by
    unfold satMul USIZE_MOD
    omega
  have hca : checkedAdd 56 ((wrapSub lt.data.length 56 / 32 + new_addresses.length / 32) * 32) = some (56 + (wrapSub lt.data.length 56 / 32 + new_addresses.length / 32) * 32) := by
    unfold checkedAdd USIZE_MOD
    rw [if_pos (by omega)]
  have hca2 : checkedAdd 56 ((wrapSub lt.data.length 56 / 32) * 32) = some (56 + (wrapSub lt.data.length 56 / 32) * 32) := by
    unfold checkedAdd USIZE_MOD
    rw [if_pos (by omega)]
  have hlen32 : 32 * (new_addresses.length / 32) = new_addresses.length :=
    Nat.mul_div_cancel' (Nat.dvd_of_mod_eq_zero hmul)
  simp only [process_extend_lookup_table, LOOKUP_TABLE_META_SIZE, PUBKEY_BYTES,
    LOOKUP_TABLE_MAX_ADDRESSES]
  rw [if_neg (by simp [h1]), if_neg (by simp [h2]), if_neg (by simp [h3]),
    if_neg (by simp [h4]), if_neg (by simp [h5]), if_neg (by omega),
    if_neg (by simp [hpos]), hsat, if_neg (by omega), hsm, hca]
  dsimp only
  rw [if_neg (show ¬(!lt.is_writable) = true from by simp [h9])]
  rw [hsm2, hca2]
  dsimp only
  rw [if_neg (show ¬56 + (wrapSub lt.data.length 56 / 32) * 32 ≥ (resizeData (if env.clock ≠ lastExtendedSlot lt.data then
         writeBytes (writeBytes lt.data 12 (natToLE env.clock 8)) 20 [wrapSub lt.data.length 56 / 32 % 256]
       else lt.data) (56 + (wrapSub lt.data.length 56 / 32 + new_addresses.length / 32) * 32)).length from by
    rw [resizeData_length]
    omega)]
  rw [if_neg (show ¬(resizeData (if env.clock ≠ lastExtendedSlot lt.data then
         writeBytes (writeBytes lt.data 12 (natToLE env.clock 8)) 20 [wrapSub lt.data.length 56 / 32 % 256]
       else lt.data) (56 + (wrapSub lt.data.length 56 / 32 + new_addresses.length / 32) * 32)).length - (56 + (wrapSub lt.data.length 56 / 32) * 32)
        ≠ new_addresses.length from by
    rw [resizeData_length]
    omega)]

/-- C6 amended: in a successful Extend the rent top-up transfer from
payer to record happens if and only if the record balance is strictly
below `max(minimum_balance(new size), 1)` (the code tops up to at
least 1 lamport), and it transfers exactly that shortfall; when the
balance already reaches that amount no transfer occurs and the
payer's signature is not required. -/
theorem extend_rent_topup_amended (env : Env) (program_id : List Nat)
    (lt auth payer sys : AccountInfo) (new_addresses : List Nat)
    (h1 : lt.owner = program_id)
    (h2 : auth.is_signer = true)
    (h3 : ¬ authorityTag lt.data = 0)
    (h4 : metaAuthority lt.data = auth.key)
    (h5 : deactivationSlot lt.data = U64_MAX)
    (hold : wrapSub lt.data.length 56 / 32 < 256)
    (hmul : new_addresses.length % 32 = 0)
    (hpos : new_addresses ≠ [])
    (hcap : wrapSub lt.data.length 56 / 32 + new_addresses.length / 32 ≤ 256)
    (h9 : lt.is_writable = true) :
    (lt.lamports < max (env.minimum_balance (56 + (wrapSub lt.data.length 56 / 32 + new_addresses.length / 32) * 32)) 1 → payer.is_signer = true →
      max (env.minimum_balance (56 + (wrapSub lt.data.length 56 / 32 + new_addresses.length / 32) * 32)) 1 - lt.lamports ≤ payer.lamports →
      process_extend_lookup_table env program_id [lt, auth, payer, sys] new_addresses
        = .ok [{ lt with
                   data := writeBytes (resizeData (if env.clock ≠ lastExtendedSlot lt.data then
           writeBytes (writeBytes lt.data 12 (natToLE env.clock 8)) 20 [wrapSub lt.data.length 56 / 32 % 256]
         else lt.data) (56 + (wrapSub lt.data.length 56 / 32 + new_addresses.length / 32) * 32)) (56 + (wrapSub lt.data.length 56 / 32) * 32) new_addresses
                   lamports := lt.lamports + (max (env.minimum_balance (56 + (wrapSub lt.data.length 56 / 32 + new_addresses.length / 32) * 32)) 1 - lt.lamports) },
               auth,
               { payer with lamports := payer.lamports - (max (env.minimum_balance (56 + (wrapSub lt.data.length 56 / 32 + new_addresses.length / 32) * 32)) 1 - lt.lamports) }, sys]) ∧
    (max (env.minimum_balance (56 + (wrapSub lt.data.length 56 / 32 + new_addresses.length / 32) * 32)) 1 ≤ lt.lamports →
      process_extend_lookup_table env program_id [lt, auth, payer, sys] new_addresses
        = .ok [{ lt with data := writeBytes (resizeData (if env.clock ≠ lastExtendedSlot lt.data then
           writeBytes (writeBytes lt.data 12 (natToLE env.clock 8)) 20 [wrapSub lt.data.length 56 / 32 % 256]
         else lt.data) (56 + (wrapSub lt.data.length 56 / 32 + new_addresses.length / 32) * 32)) (56 + (wrapSub lt.data.length 56 / 32) * 32) new_addresses }, auth, payer, sys]) := by
  rw [extend_eval env program_id lt auth payer sys new_addresses
    h1 h2 h3 h4 h5 hold hmul hpos hcap h9]
  constructor
  · intro hlam hpay hfund
    rw [if_pos (by omega)]
    rw [if_neg (by simp [hpay])]
    simp only [cpiTransfer]
    rw [if_pos hfund]
  · intro hm
    rw [if_neg (by omega)]

/-- Witness for the amended C6 on a concrete extend with no shortfall. -/
theorem extend_rent_topup_amended_witness :
    ((tableW U64_MAX 1 []).lamports < max (envW.minimum_balance (56 + (wrapSub (tableW U64_MAX 1 []).data.length 56 / 32 + (List.replicate 32 42).length / 32) * 32)) 1 → payerW.is_signer = true →
      max (envW.minimum_balance (56 + (wrapSub (tableW U64_MAX 1 []).data.length 56 / 32 + (List.replicate 32 42).length / 32) * 32)) 1 - (tableW U64_MAX 1 []).lamports ≤ payerW.lamports →
      process_extend_lookup_table envW pidW [tableW U64_MAX 1 [], authW, payerW, sysW] (List.replicate 32 42)
        = .ok [{ tableW U64_MAX 1 [] with
                   data := writeBytes (resizeData (if envW.clock ≠ lastExtendedSlot (tableW U64_MAX 1 []).data then
           writeBytes (writeBytes (tableW U64_MAX 1 []).data 12 (natToLE envW.clock 8)) 20 [wrapSub (tableW U64_MAX 1 []).data.length 56 / 32 % 256]
         else (tableW U64_MAX 1 []).data) (56 + (wrapSub (tableW U64_MAX 1 []).data.length 56 / 32 + (List.replicate 32 42).length / 32) * 32)) (56 + (wrapSub (tableW U64_MAX 1 []).data.length 56 / 32) * 32) (List.replicate 32 42)
                   lamports := (tableW U64_MAX 1 []).lamports + (max (envW.minimum_balance (56 + (wrapSub (tableW U64_MAX 1 []).data.length 56 / 32 + (List.replicate 32 42).length / 32) * 32)) 1 - (tableW U64_MAX 1 []).lamports) },
               authW,
               { payerW with lamports := payerW.lamports - (max (envW.minimum_balance (56 + (wrapSub (tableW U64_MAX 1 []).data.length 56 / 32 + (List.replicate 32 42).length / 32) * 32)) 1 - (tableW U64_MAX 1 []).lamports) }, sysW]) ∧
    (max (envW.minimum_balance (56 + (wrapSub (tableW U64_MAX 1 []).data.length 56 / 32 + (List.replicate 32 42).length / 32) * 32)) 1 ≤ (tableW U64_MAX 1 []).lamports →
      process_extend_lookup_table envW pidW [tableW U64_MAX 1 [], authW, payerW, sysW] (List.replicate 32 42)
        = .ok [{ tableW U64_MAX 1 [] with data := writeBytes (resizeData (if envW.clock ≠ lastExtendedSlot (tableW U64_MAX 1 []).data then
           writeBytes (writeBytes (tableW U64_MAX 1 []).data 12 (natToLE envW.clock 8)) 20 [wrapSub (tableW U64_MAX 1 []).data.length 56 / 32 % 256]
         else (tableW U64_MAX 1 []).data) (56 + (wrapSub (tableW U64_MAX 1 []).data.length 56 / 32 + (List.replicate 32 42).length / 32) * 32)) (56 + (wrapSub (tableW U64_MAX 1 []).data.length 56 / 32) * 32) (List.replicate 32 42) }, authW, payerW, sysW])  :=
  extend_rent_topup_amended envW pidW (tableW U64_MAX 1 []) authW payerW sysW
    (List.replicate 32 42) (by decide) (by decide) (by decide) (by decide) (by decide)
    (by decide) (by decide) (by decide) (by decide) (by decide)

/-- C3: a successful Extend leaves the record's entry count at most
256 (byte length at most 56 + 256*32); an Extend whose resulting count
would exceed 256 fails with the instruction-data error before any
mutation; and the other operations preserve the cap: Freeze keeps the
length, Deactivate keeps the entry count, Close empties the record. -/
theorem entry_count_invariant_capped (env : Env) (program_id : List Nat)
    (lt auth payer sys recipient shacc : AccountInfo) (new_addresses : List Nat)
    (res res2 res3 res4 : List AccountInfo) :
    (process_extend_lookup_table env program_id [lt, auth, payer, sys] new_addresses
        = .ok res →
      ∃ t rest, res = t :: rest ∧ t.data.length ≤ 56 + 256 * 32 ∧
        (t.data.length - 56) / 32 ≤ 256) ∧
    (lt.owner = program_id → auth.is_signer = true → ¬ authorityTag lt.data = 0 →
      metaAuthority lt.data = auth.key → deactivationSlot lt.data = U64_MAX →
      wrapSub lt.data.length 56 / 32 < 256 → new_addresses ≠ [] →
      wrapSub lt.data.length 56 / 32 + new_addresses.length / 32 > 256 →
      process_extend_lookup_table env program_id [lt, auth, payer, sys] new_addresses
        = .err .InvalidInstructionData) ∧
    (process_freeze_lookup_table program_id [lt, auth] = .ok res2 →
      ∃ t, res2 = [t, auth] ∧ t.data.length = lt.data.length) ∧
    (process_deactivate_lookup_table env program_id [lt, auth] = .ok res3 →
      ∃ t, res3 = [t, auth] ∧ (t.data.length - 56) / 32 = (lt.data.length - 56) / 32) ∧
    (process_close_lookup_table env program_id [lt, auth, recipient, shacc] = .ok res4 →
      ∃ t rest, res4 = t :: rest ∧ t.data = []) := by
  refine ⟨?_, ?_, ?_, ?_, ?_⟩
  · intro h
    simp only [process_extend_lookup_table, LOOKUP_TABLE_META_SIZE, PUBKEY_BYTES,
      LOOKUP_TABLE_MAX_ADDRESSES] at h
    set old := wrapSub lt.data.length 56 / 32 with hold_def
    set D := (if env.clock ≠ lastExtendedSlot lt.data then
        writeBytes (writeBytes lt.data 12 (natToLE env.clock 8)) 20 [old % 256]
      else lt.data) with hD_def
    clear_value old D
    clear hold_def hD_def
    by_cases c1 : lt.owner ≠ program_id
    · rw [if_pos c1] at h
      exact PResult.noConfusion h
    rw [if_neg c1] at h
    by_cases c2 : (!auth.is_signer) = true
    · rw [if_pos c2] at h
      exact PResult.noConfusion h
    rw [if_neg c2] at h
    by_cases c3 : authorityTag lt.data = 0
    · rw [if_pos c3] at h
      exact PResult.noConfusion h
    rw [if_neg c3] at h
    by_cases c4 : metaAuthority lt.data ≠ auth.key
    · rw [if_pos c4] at h
      exact PResult.noConfusion h
    rw [if_neg c4] at h
    by_cases c5 : deactivationSlot lt.data ≠ U64_MAX
    · rw [if_pos c5] at h
      exact PResult.noConfusion h
    rw [if_neg c5] at h
    by_cases c6 : old ≥ 256
    · rw [if_pos c6] at h
      exact PResult.noConfusion h
    rw [if_neg c6] at h
    by_cases c7 : new_addresses.isEmpty = true
    · rw [if_pos c7] at h
      exact PResult.noConfusion h
    rw [if_neg c7] at h
    by_cases c8 : satAdd old (new_addresses.length / 32) > 256
    · rw [if_pos c8] at h
      exact PResult.noConfusion h
    rw [if_neg c8] at h
    rcases hN : checkedAdd 56 (satMul (satAdd old (new_addresses.length / 32)) 32) with _ | n
    · rw [hN] at h
      exact PResult.noConfusion h
    rw [hN] at h
    dsimp only at h
    by_cases c9 : (!lt.is_writable) = true
    · rw [if_pos c9] at h
      exact PResult.noConfusion h
    rw [if_neg c9] at h
    rcases hF : checkedAdd 56 (satMul old 32) with _ | offset
    · rw [hF] at h
      exact PResult.noConfusion h
    rw [hF] at h
    dsimp only at h
    by_cases cOff : offset ≥ (resizeData D n).length
    · rw [if_pos cOff] at h
      exact PResult.noConfusion h
    rw [if_neg cOff] at h
    by_cases cCopy : (resizeData D n).length - offset ≠ new_addresses.length
    · rw [if_pos cCopy] at h
      exact PResult.noConfusion h
    rw [if_neg cCopy] at h
    have hsA : satAdd old (new_addresses.length / 32) = old + new_addresses.length / 32 := by
      unfold satAdd USIZE_MOD
      unfold satAdd USIZE_MOD at c8
      omega
    have hnval : n = 56 + (old + new_addresses.length / 32) * 32 := by
      rw [hsA] at hN
      have hmv : satMul (old + new_addresses.length / 32) 32
          = (old + new_addresses.length / 32) * 32 := by
        unfold satAdd USIZE_MOD at c8
        unfold satMul USIZE_MOD
        omega
      rw [hmv] at hN
      unfold checkedAdd USIZE_MOD at hN
      rw [if_pos (by unfold satAdd USIZE_MOD at c8; omega)] at hN
      exact (Option.some.injEq _ _ ▸ hN).symm
    have hlenfin : (writeBytes (resizeData D n) offset new_addresses).length = n := by
      rw [writeBytes_length _ _ _ (by rw [resizeData_length] at cOff cCopy ⊢; omega)]
      exact resizeData_length D n
    have hbound : old + new_addresses.length / 32 ≤ 256 := by
      unfold satAdd USIZE_MOD at c8
      omega
    by_cases cReq : env.minimum_balance n ⊔ 1 - lt.lamports > 0
    · rw [if_pos cReq] at h
      by_cases cP : (!payer.is_signer) = true
      · rw [if_pos cP] at h
        exact PResult.noConfusion h
      rw [if_neg cP] at h
      simp only [cpiTransfer] at h
      by_cases cF : env.minimum_balance n ⊔ 1 - lt.lamports ≤ payer.lamports
      · rw [if_pos cF] at h
        dsimp only at h
        injection h with hres
        refine ⟨_, _, hres.symm, ?_, ?_⟩
        · show (writeBytes (resizeData D n) offset new_addresses).length ≤ 56 + 256 * 32
          rw [hlenfin, hnval]
          omega
        · show ((writeBytes (resizeData D n) offset new_addresses).length - 56) / 32 ≤ 256
          rw [hlenfin, hnval]
          omega
      · rw [if_neg cF] at h
        dsimp only at h
        exact PResult.noConfusion h
    · rw [if_neg cReq] at h
      injection h with hres
      refine ⟨_, _, hres.symm, ?_, ?_⟩
      · show (writeBytes (resizeData D n) offset new_addresses).length ≤ 56 + 256 * 32
        rw [hlenfin, hnval]
        omega
      · show ((writeBytes (resizeData D n) offset new_addresses).length - 56) / 32 ≤ 256
        rw [hlenfin, hnval]
        omega
  · intro h1 h2 h3 h4 h5 hold hpos hover
    simp only [process_extend_lookup_table, LOOKUP_TABLE_META_SIZE, PUBKEY_BYTES,
      LOOKUP_TABLE_MAX_ADDRESSES]
    rw [if_neg (by simp [h1]), if_neg (by simp [h2]), if_neg (by simp [h3]),
      if_neg (by simp [h4]), if_neg (by simp [h5]), if_neg (by omega),
      if_neg (by simp [hpos]),
      if_pos (show satAdd (wrapSub lt.data.length 56 / 32) (new_addresses.length / 32)
          > 256 from by unfold satAdd USIZE_MOD; omega)]
  · intro h
    simp only [process_freeze_lookup_table, LOOKUP_TABLE_META_SIZE] at h
    by_cases c1 : lt.owner ≠ program_id
    · rw [if_pos c1] at h
      exact PResult.noConfusion h
    rw [if_neg c1] at h
    by_cases c2 : (!auth.is_signer) = true
    · rw [if_pos c2] at h
      exact PResult.noConfusion h
    rw [if_neg c2] at h
    by_cases c3 : authorityTag lt.data = 0
    · rw [if_pos c3] at h
      exact PResult.noConfusion h
    rw [if_neg c3] at h
    by_cases c4 : metaAuthority lt.data ≠ auth.key
    · rw [if_pos c4] at h
      exact PResult.noConfusion h
    rw [if_neg c4] at h
    by_cases c5 : deactivationSlot lt.data ≠ U64_MAX
    · rw [if_pos c5] at h
      exact PResult.noConfusion h
    rw [if_neg c5] at h
    by_cases c6 : lt.data.length ≤ 56 ∨ (lt.data.drop 56).isEmpty = true
    · rw [if_pos c6] at h
      exact PResult.noConfusion h
    rw [if_neg c6] at h
    injection h with hres
    have hl : ¬ lt.data.length ≤ 56 := fun hle => c6 (Or.inl hle)
    have h1l : (writeBytes lt.data 21 [0]).length = lt.data.length :=
      writeBytes_length _ _ _ (by simp; omega)
    refine ⟨_, hres.symm, ?_⟩
    show (writeBytes (writeBytes lt.data 21 [0]) 22 (List.replicate 32 0)).length
      = lt.data.length
    rw [writeBytes_length _ _ _ (by rw [h1l]; simp; omega), h1l]
  · intro h
    simp only [process_deactivate_lookup_table] at h
    by_cases c1 : lt.owner ≠ program_id
    · rw [if_pos c1] at h
      exact PResult.noConfusion h
    rw [if_neg c1] at h
    by_cases c2 : (!auth.is_signer) = true
    · rw [if_pos c2] at h
      exact PResult.noConfusion h
    rw [if_neg c2] at h
    by_cases c3 : authorityTag lt.data = 0
    · rw [if_pos c3] at h
      exact PResult.noConfusion h
    rw [if_neg c3] at h
    by_cases c4 : metaAuthority lt.data ≠ auth.key
    · rw [if_pos c4] at h
      exact PResult.noConfusion h
    rw [if_neg c4] at h
    by_cases c5 : deactivationSlot lt.data ≠ U64_MAX
    · rw [if_pos c5] at h
      exact PResult.noConfusion h
    rw [if_neg c5] at h
    injection h with hres
    refine ⟨_, hres.symm, ?_⟩
    show ((writeBytes lt.data 4 (natToLE env.clock 8)).length - 56) / 32
      = (lt.data.length - 56) / 32
    simp [writeBytes, natToLE_length]
    omega
  · intro h
    simp only [process_close_lookup_table] at h
    by_cases c1 : lt.owner ≠ program_id
    · rw [if_pos c1] at h
      exact PResult.noConfusion h
    rw [if_neg c1] at h
    by_cases c2 : (!auth.is_signer) = true
    · rw [if_pos c2] at h
      exact PResult.noConfusion h
    rw [if_neg c2] at h
    by_cases c3 : lt.key = recipient.key
    · rw [if_pos c3] at h
      exact PResult.noConfusion h
    rw [if_neg c3] at h
    by_cases c4 : authorityTag lt.data = 0
    · rw [if_pos c4] at h
      exact PResult.noConfusion h
    rw [if_neg c4] at h
    by_cases c5 : metaAuthority lt.data ≠ auth.key
    · rw [if_pos c5] at h
      exact PResult.noConfusion h
    rw [if_neg c5] at h
    by_cases c6 : deactivationSlot lt.data = U64_MAX
    · rw [if_pos c6] at h
      exact PResult.noConfusion h
    rw [if_neg c6] at h
    by_cases c7 : deactivationSlot lt.data = env.clock
    · rw [if_pos c7] at h
      exact PResult.noConfusion h
    rw [if_neg c7] at h
    by_cases c8 : shacc.key ≠ SLOTHASHES_ID
    · rw [if_pos c8] at h
      exact PResult.noConfusion h
    rw [if_neg c8] at h
    by_cases c9 : (slotPosition env.slotHashes (deactivationSlot lt.data)).isSome = true
    · rw [if_pos c9] at h
      exact PResult.noConfusion h
    rw [if_neg c9] at h
    rcases hCA : checkedAdd lt.lamports recipient.lamports with _ | nl
    · rw [hCA] at h
      exact PResult.noConfusion h
    rw [hCA] at h
    dsimp only at h
    by_cases c10 : (!recipient.is_writable) = true
    · rw [if_pos c10] at h
      exact PResult.noConfusion h
    rw [if_neg c10] at h
    by_cases c11 : (!lt.is_writable) = true
    · rw [if_pos c11] at h
      exact PResult.noConfusion h
    rw [if_neg c11] at h
    injection h with hres
    refine ⟨_, _, hres.symm, ?_⟩
    show resizeData lt.data 0 = []
    simp [resizeData]

/-- Witness for C3 at concrete one-entry tables. -/
theorem entry_count_invariant_capped_witness :
    (process_extend_lookup_table envW pidW [(tableW U64_MAX 1 (List.replicate 32 11)), authW, payerW, sysW] (List.replicate 32 42)
        = .ok (extTabW :: [authW, { payerW with lamports := 980 }, sysW]) →
      ∃ t rest, (extTabW :: [authW, { payerW with lamports := 980 }, sysW]) = t :: rest ∧ t.data.length ≤ 56 + 256 * 32 ∧
        (t.data.length - 56) / 32 ≤ 256) ∧
    ((tableW U64_MAX 1 (List.replicate 32 11)).owner = pidW → authW.is_signer = true → ¬ authorityTag (tableW U64_MAX 1 (List.replicate 32 11)).data = 0 →
      metaAuthority (tableW U64_MAX 1 (List.replicate 32 11)).data = authW.key → deactivationSlot (tableW U64_MAX 1 (List.replicate 32 11)).data = U64_MAX →
      wrapSub (tableW U64_MAX 1 (List.replicate 32 11)).data.length 56 / 32 < 256 → (List.replicate 32 42) ≠ [] →
      wrapSub (tableW U64_MAX 1 (List.replicate 32 11)).data.length 56 / 32 + (List.replicate 32 42).length / 32 > 256 →
      process_extend_lookup_table envW pidW [(tableW U64_MAX 1 (List.replicate 32 11)), authW, payerW, sysW] (List.replicate 32 42)
        = .err .InvalidInstructionData) ∧
    (process_freeze_lookup_table pidW [(tableW U64_MAX 1 (List.replicate 32 11)), authW] = .ok [frzTabW, authW] →
      ∃ t, [frzTabW, authW] = [t, authW] ∧ t.data.length = (tableW U64_MAX 1 (List.replicate 32 11)).data.length) ∧
    (process_deactivate_lookup_table envW pidW [(tableW U64_MAX 1 (List.replicate 32 11)), authW] = .ok [deaTabW, authW] →
      ∃ t, [deaTabW, authW] = [t, authW] ∧ (t.data.length - 56) / 32 = ((tableW U64_MAX 1 (List.replicate 32 11)).data.length - 56) / 32) ∧
    (process_close_lookup_table envW pidW [(tableW U64_MAX 1 (List.replicate 32 11)), authW, recipW, shW] = .ok ([] : List AccountInfo) →
      ∃ t rest, ([] : List AccountInfo) = t :: rest ∧ t.data = [])  :=
  entry_count_invariant_capped envW pidW (tableW U64_MAX 1 (List.replicate 32 11))
    authW payerW sysW recipW shW (List.replicate 32 42)
    (extTabW :: [authW, { payerW with lamports := 980 }, sysW]) [frzTabW, authW] [deaTabW, authW] []


/-- C9: for an Extend whose address buffer length is a positive
multiple of 32 (as dispatch guarantees) and that passes the capacity
checks, the record is at least header-sized, the write offset is
strictly below the new data length, their difference is exactly the
buffer length — so the bounds-check error branch is unreachable — and
the handler can never hit the `copy_from_slice` panic. -/
theorem extend_copy_bounds_safe (env : Env) (program_id : List Nat)
    (lt auth payer sys : AccountInfo) (new_addresses : List Nat)
    (hdl : lt.data.length < 2 ^ 64)
    (hmul : new_addresses.length % 32 = 0)
    (hpos : new_addresses ≠ [])
    (hcap1 : wrapSub lt.data.length 56 / 32 < 256)
    (hcap2 : wrapSub lt.data.length 56 / 32 + new_addresses.length / 32 ≤ 256) :
    56 ≤ lt.data.length ∧
    56 + (wrapSub lt.data.length 56 / 32) * 32 < 56 + (wrapSub lt.data.length 56 / 32 + new_addresses.length / 32) * 32 ∧
    (56 + (wrapSub lt.data.length 56 / 32 + new_addresses.length / 32) * 32) - (56 + (wrapSub lt.data.length 56 / 32) * 32) = new_addresses.length ∧
    process_extend_lookup_table env program_id [lt, auth, payer, sys] new_addresses
      ≠ .panic := by
  have hlen0 : new_addresses.length ≠ 0 := fun hz => hpos (List.eq_nil_of_length_eq_zero hz)
  have hw : wrapSub lt.data.length 56 = lt.data.length - 56 ∧ 56 ≤ lt.data.length := by
    unfold wrapSub USIZE_MOD at hcap1
    unfold wrapSub USIZE_MOD
    omega
  refine ⟨hw.2, by omega, by omega, ?_⟩
  intro h
  simp only [process_extend_lookup_table, LOOKUP_TABLE_META_SIZE, PUBKEY_BYTES,
    LOOKUP_TABLE_MAX_ADDRESSES] at h
  set old := wrapSub lt.data.length 56 / 32 with hold_def
  set D := (if env.clock ≠ lastExtendedSlot lt.data then
      writeBytes (writeBytes lt.data 12 (natToLE env.clock 8)) 20 [old % 256]
    else lt.data) with hD_def
  have holdv : old = (lt.data.length - 56) / 32 := by
    rw [hold_def, hw.1]
  clear_value old D
  clear hold_def hD_def
  by_cases c1 : lt.owner ≠ program_id
  · rw [if_pos c1] at h
    exact PResult.noConfusion h
  rw [if_neg c1] at h
  by_cases c2 : (!auth.is_signer) = true
  · rw [if_pos c2] at h
    exact PResult.noConfusion h
  rw [if_neg c2] at h
  by_cases c3 : authorityTag lt.data = 0
  · rw [if_pos c3] at h
    exact PResult.noConfusion h
  rw [if_neg c3] at h
  by_cases c4 : metaAuthority lt.data ≠ auth.key
  · rw [if_pos c4] at h
    exact PResult.noConfusion h
  rw [if_neg c4] at h
  by_cases c5 : deactivationSlot lt.data ≠ U64_MAX
  · rw [if_pos c5] at h
    exact PResult.noConfusion h
  rw [if_neg c5] at h
  by_cases c6 : old ≥ 256
  · rw [if_pos c6] at h
    exact PResult.noConfusion h
  rw [if_neg c6] at h
  by_cases c7 : new_addresses.isEmpty = true
  · rw [if_pos c7] at h
    exact PResult.noConfusion h
  rw [if_neg c7] at h
  by_cases c8 : satAdd old (new_addresses.length / 32) > 256
  · rw [if_pos c8] at h
    exact PResult.noConfusion h
  rw [if_neg c8] at h
  have hold256 : old < 256 := Nat.lt_of_not_le c6
  have hsA : satAdd old (new_addresses.length / 32) = old + new_addresses.length / 32 := by
    unfold satAdd USIZE_MOD
    unfold satAdd USIZE_MOD at c8
    omega
  have hmv : satMul (old + new_addresses.length / 32) 32 = (old + new_addresses.length / 32) * 32 := by
    unfold satAdd USIZE_MOD at c8
    unfold satMul USIZE_MOD
    omega
  have hmv2 : satMul old 32 = old * 32 := by
    unfold satMul USIZE_MOD
    exact Nat.min_eq_left (le_trans
      (Nat.mul_le_mul_right 32 (Nat.le_of_lt hold256)) (by norm_num))
  have hca1 : checkedAdd 56 (satMul (satAdd old (new_addresses.length / 32)) 32)
      = some (56 + (old + new_addresses.length / 32) * 32) := by
    rw [hsA, hmv]
    unfold checkedAdd USIZE_MOD
    rw [if_pos (by unfold satAdd USIZE_MOD at c8; omega)]
  have hca2 : checkedAdd 56 (satMul old 32) = some (56 + old * 32) := by
    rw [hmv2]
    unfold checkedAdd USIZE_MOD
    rw [if_pos (by omega)]
  rw [hca1] at h
  dsimp only at h
  by_cases c9 : (!lt.is_writable) = true
  · rw [if_pos c9] at h
    exact PResult.noConfusion h
  rw [if_neg c9] at h
  rw [hca2] at h
  dsimp only at h
  by_cases cOff : 56 + old * 32 ≥ (resizeData D (56 + (old + new_addresses.length / 32) * 32)).length
  · rw [if_pos cOff] at h
    exact PResult.noConfusion h
  rw [if_neg cOff] at h
  by_cases cCopy : (resizeData D (56 + (old + new_addresses.length / 32) * 32)).length - (56 + old * 32)
      ≠ new_addresses.length
  · exfalso
    rw [resizeData_length] at cCopy
    omega
  rw [if_neg cCopy] at h
  by_cases cReq : env.minimum_balance (56 + (old + new_addresses.length / 32) * 32) ⊔ 1 - lt.lamports > 0
  · rw [if_pos cReq] at h
    by_cases cP : (!payer.is_signer) = true
    · rw [if_pos cP] at h
      exact PResult.noConfusion h
    rw [if_neg cP] at h
    rcases hT : cpiTransfer payer { lt with data := writeBytes (resizeData D (56 + (old + new_addresses.length / 32) * 32)) (56 + old * 32) new_addresses } (env.minimum_balance (56 + (old + new_addresses.length / 32) * 32) ⊔ 1 - lt.lamports) with _ | pr
    · rw [hT] at h
      exact PResult.noConfusion h
    rw [hT] at h
    dsimp only at h
    exact PResult.noConfusion h
  · rw [if_neg cReq] at h
    exact PResult.noConfusion h

/-- Witness for C9 at a concrete empty table extended by one address. -/
theorem extend_copy_bounds_safe_witness :
    (tableW U64_MAX 1 []).data.length < 2 ^ 64 ∧
    (List.replicate 32 42 : List Nat).length % 32 = 0 ∧
    (List.replicate 32 42 : List Nat) ≠ [] ∧
    wrapSub (tableW U64_MAX 1 []).data.length 56 / 32 < 256 ∧
    wrapSub (tableW U64_MAX 1 []).data.length 56 / 32
      + (List.replicate 32 42 : List Nat).length / 32 ≤ 256 ∧
    (56 ≤ (tableW U64_MAX 1 []).data.length ∧
    56 + (wrapSub (tableW U64_MAX 1 []).data.length 56 / 32) * 32 < 56 + (wrapSub (tableW U64_MAX 1 []).data.length 56 / 32 + (List.replicate 32 42).length / 32) * 32 ∧
    (56 + (wrapSub (tableW U64_MAX 1 []).data.length 56 / 32 + (List.replicate 32 42).length / 32) * 32) - (56 + (wrapSub (tableW U64_MAX 1 []).data.length 56 / 32) * 32) = (List.replicate 32 42).length ∧
    process_extend_lookup_table envW pidW [(tableW U64_MAX 1 []), authW, payerW, sysW] (List.replicate 32 42)
      ≠ .panic) :=
  ⟨by decide, by decide, by decide, by decide, by decide,
    extend_copy_bounds_safe envW pidW (tableW U64_MAX 1 []) authW payerW sysW
      (List.replicate 32 42) (by decide) (by decide) (by decide) (by decide) (by decide)⟩

/-- C2 counterexample: a Close call that meets every condition the
claim states — program-owned, authority-signed, deactivating at a past
slot outside the oracle window, distinct writable recipient, no
overflow — still fails (with the immutability error) when the record
account itself is not writable, refuting the claimed "otherwise
succeeds". -/
theorem close_requires_writable_record_counterexample :
    deactivationSlot { tableW 5 1 [] with is_writable := false }.data ≠ U64_MAX ∧
    deactivationSlot { tableW 5 1 [] with is_writable := false }.data ≠ envW.clock ∧
    (slotPosition envW.slotHashes
      (deactivationSlot { tableW 5 1 [] with is_writable := false }.data)).isSome = false ∧
    recipW.is_writable = true ∧
    process_close_lookup_table envW pidW
      [{ tableW 5 1 [] with is_writable := false }, authW, recipW, shW]
      = .err .Immutable :=
  ⟨by decide, by decide, by decide, by decide, by decide⟩

/-- C2 amended: for every Close call on a program-owned,
authority-signed record (with distinct recipient and the canonical
oracle account): it fails if the record is not deactivating, fails if
the deactivation slot equals the current clock slot, fails while the
oracle window still contains the deactivation slot, and otherwise —
with overflow-checked addition, a writable recipient, and a writable
record — succeeds, setting the recipient's balance to the sum of both
balances, shrinking the record to zero length and zeroing its
balance. -/
theorem close_deactivation_gating (env : Env) (program_id : List Nat)
    (lt auth recipient shacc : AccountInfo)
    (h1 : lt.owner = program_id)
    (h2 : auth.is_signer = true)
    (h3 : lt.key ≠ recipient.key)
    (h4 : ¬ authorityTag lt.data = 0)
    (h5 : metaAuthority lt.data = auth.key)
    (h6 : shacc.key = SLOTHASHES_ID) :
    (deactivationSlot lt.data = U64_MAX →
      process_close_lookup_table env program_id [lt, auth, recipient, shacc]
        = .err .InvalidArgument) ∧
    (deactivationSlot lt.data ≠ U64_MAX → deactivationSlot lt.data = env.clock →
      process_close_lookup_table env program_id [lt, auth, recipient, shacc]
        = .err .InvalidArgument) ∧
    (deactivationSlot lt.data ≠ U64_MAX → deactivationSlot lt.data ≠ env.clock →
      (slotPosition env.slotHashes (deactivationSlot lt.data)).isSome = true →
      process_close_lookup_table env program_id [lt, auth, recipient, shacc]
        = .err .InvalidArgument) ∧
    (deactivationSlot lt.data ≠ U64_MAX → deactivationSlot lt.data ≠ env.clock →
      (slotPosition env.slotHashes (deactivationSlot lt.data)).isSome = false →
      lt.lamports + recipient.lamports < 2 ^ 64 →
      recipient.is_writable = true → lt.is_writable = true →
      process_close_lookup_table env program_id [lt, auth, recipient, shacc]
        = .ok [{ lt with data := [], lamports := 0 }, auth,
               { recipient with lamports := recipient.lamports + lt.lamports }, shacc]) := by
  refine ⟨?_, ?_, ?_, ?_⟩
  · intro d1
    simp [process_close_lookup_table, h1, h2, h3, h4, h5, h6, d1]
  · intro d1 d2
    simp [process_close_lookup_table, h1, h2, h3, h4, h5, h6, d1, d2]
  · intro d1 d2 d3
    simp [process_close_lookup_table, h1, h2, h3, h4, h5, h6, d1, d2, d3]
  · intro d1 d2 d3 d4 d5 d6
    simp only [process_close_lookup_table, h1, h2, h3, h4, h5, h6]
    rw [if_neg (by simp [h1]), if_neg (by simp [h2]), if_neg (by simp [h3]),
      if_neg (by simp [h4]), if_neg (by simp [h5]), if_neg (by simp [d1]),
      if_neg (by simp [d2]), if_neg (by simp [h6]), if_neg (by simp [d3])]
    rw [show checkedAdd lt.lamports recipient.lamports
        = some (lt.lamports + recipient.lamports) from by
      unfold checkedAdd USIZE_MOD
      rw [if_pos d4]]
    dsimp only
    rw [if_neg (by simp [d5]), if_neg (by simp [d6])]
    simp [resizeData, Nat.add_comm]

/-- Witness for the amended C2 on a concrete deactivated table whose
deactivation slot has left the oracle window. -/
theorem close_deactivation_gating_witness :
    (tableW 5 1 []).owner = pidW ∧ authW.is_signer = true ∧
    (tableW 5 1 []).key ≠ recipW.key ∧
    ¬ authorityTag (tableW 5 1 []).data = 0 ∧
    metaAuthority (tableW 5 1 []).data = authW.key ∧
    shW.key = SLOTHASHES_ID ∧
    ((deactivationSlot (tableW 5 1 []).data = U64_MAX →
      process_close_lookup_table envW pidW [(tableW 5 1 []), authW, recipW, shW]
        = .err .InvalidArgument) ∧
    (deactivationSlot (tableW 5 1 []).data ≠ U64_MAX → deactivationSlot (tableW 5 1 []).data = envW.clock →
      process_close_lookup_table envW pidW [(tableW 5 1 []), authW, recipW, shW]
        = .err .InvalidArgument) ∧
    (deactivationSlot (tableW 5 1 []).data ≠ U64_MAX → deactivationSlot (tableW 5 1 []).data ≠ envW.clock →
      (slotPosition envW.slotHashes (deactivationSlot (tableW 5 1 []).data)).isSome = true →
      process_close_lookup_table envW pidW [(tableW 5 1 []), authW, recipW, shW]
        = .err .InvalidArgument) ∧
    (deactivationSlot (tableW 5 1 []).data ≠ U64_MAX → deactivationSlot (tableW 5 1 []).data ≠ envW.clock →
      (slotPosition envW.slotHashes (deactivationSlot (tableW 5 1 []).data)).isSome = false →
      (tableW 5 1 []).lamports + recipW.lamports < 2 ^ 64 →
      recipW.is_writable = true → (tableW 5 1 []).is_writable = true →
      process_close_lookup_table envW pidW [(tableW 5 1 []), authW, recipW, shW]
        = .ok [{ tableW 5 1 [] with data := [], lamports := 0 }, authW,
               { recipW with lamports := recipW.lamports + (tableW 5 1 []).lamports }, shW])) :=
  ⟨by decide, by decide, by decide, by decide, by decide, by decide,
    close_deactivation_gating envW pidW (tableW 5 1 []) authW recipW shW
      (by decide) (by decide) (by decide) (by decide) (by decide) (by decide)⟩

theorem drop_append4 (a t : List Nat) (ha : a.length = 4) (off : Nat) (h : 4 ≤ off) :
    (a ++ t).drop off = t.drop (off - 4) := by
  obtain ⟨k, rfl⟩ : ∃ k, off = 4 + k := ⟨off - 4, by omega⟩
  rw [show (4 : Nat) + k = a.length + k from by rw [ha], List.drop_append]
  simp [ha]

theorem take4_exact (a X : List Nat) (ha : a.length = 4) : (a ++ X).take 4 = a := by
  rw [← ha, List.take_left]

theorem drop4_exact (a X : List Nat) (ha : a.length = 4) : (a ++ X).drop 4 = X := by
  rw [← ha, List.drop_left]

theorem writeBytes_append4 (a t src : List Nat) (ha : a.length = 4) (off : Nat)
    (h : 4 ≤ off) :
    writeBytes (a ++ t) off src = a ++ writeBytes t (off - 4) src := by
  obtain ⟨k, rfl⟩ : ∃ k, off = 4 + k := ⟨off - 4, by omega⟩
  rw [writeBytes, writeBytes, Nat.add_sub_cancel_left,
    show (4 : Nat) + k = a.length + k from by rw [ha], List.take_append,
    show a.length + k + src.length = a.length + (k + src.length) from by omega,
    List.drop_append]
  simp [List.append_assoc]

theorem resizeData_append4 (a t : List Nat) (ha : a.length = 4) (n : Nat) (h : 4 ≤ n) :
    resizeData (a ++ t) n = a ++ resizeData t (n - 4) := by
  obtain ⟨k, rfl⟩ : ∃ k, n = 4 + k := ⟨n - 4, by omega⟩
  rw [Nat.add_sub_cancel_left]
  unfold resizeData
  by_cases hk : k ≤ t.length
  · rw [if_pos (by simp [ha]; omega), if_pos hk,
      show (4 : Nat) + k = a.length + k from by rw [ha], List.take_append]
  · rw [if_neg (by simp [ha]; omega), if_neg hk, List.append_assoc]
    congr 2
    simp [ha]
    omega

theorem discFreeze_scrub (program_id : List Nat) (a b t : List Nat) (lt auth : AccountInfo)
    (ha : a.length = 4) (hb : b.length = 4) :
    scrubDisc (process_freeze_lookup_table program_id [{ lt with data := a ++ t }, auth])
      = scrubDisc (process_freeze_lookup_table program_id [{ lt with data := b ++ t }, auth]) := by
  simp only [process_freeze_lookup_table, LOOKUP_TABLE_META_SIZE]
  have eTag : authorityTag (a ++ t) = authorityTag (b ++ t) := by
    unfold authorityTag readLE
    rw [drop_append4 a t ha 21 (by norm_num), drop_append4 b t hb 21 (by norm_num)]
  have eAuth : metaAuthority (a ++ t) = metaAuthority (b ++ t) := by
    unfold metaAuthority
    rw [drop_append4 a t ha 22 (by norm_num), drop_append4 b t hb 22 (by norm_num)]
  have eDe : deactivationSlot (a ++ t) = deactivationSlot (b ++ t) := by
    unfold deactivationSlot readLE
    rw [drop_append4 a t ha 4 (by norm_num), drop_append4 b t hb 4 (by norm_num)]
  have eLen : (a ++ t).length = (b ++ t).length := by simp [ha, hb]
  have eDrop : (a ++ t).drop 56 = (b ++ t).drop 56 := by
    rw [drop_append4 a t ha 56 (by norm_num), drop_append4 b t hb 56 (by norm_num)]
  rw [eTag, eAuth, eDe, eLen, eDrop]
  by_cases c1 : lt.owner ≠ program_id
  · simp only [if_pos c1]
  simp only [if_neg c1]
  by_cases c2 : (!auth.is_signer) = true
  · simp only [if_pos c2]
  simp only [if_neg c2]
  by_cases c3 : authorityTag (b ++ t) = 0
  · simp only [if_pos c3]
  simp only [if_neg c3]
  by_cases c4 : metaAuthority (b ++ t) ≠ auth.key
  · simp only [if_pos c4]
  simp only [if_neg c4]
  by_cases c5 : deactivationSlot (b ++ t) ≠ U64_MAX
  · simp only [if_pos c5]
  simp only [if_neg c5]
  by_cases c6 : (b ++ t).length ≤ 56 ∨ ((b ++ t).drop 56).isEmpty = true
  · simp only [if_pos c6]
  simp only [if_neg c6]
  rw [writeBytes_append4 a t [0] ha 21 (by norm_num),
    writeBytes_append4 b t [0] hb 21 (by norm_num),
    writeBytes_append4 a _ (List.replicate 32 0) ha 22 (by norm_num),
    writeBytes_append4 b _ (List.replicate 32 0) hb 22 (by norm_num)]
  simp only [scrubDisc, drop4_exact a _ ha, drop4_exact b _ hb]

theorem discDeactivate_scrub (env : Env) (program_id : List Nat) (a b t : List Nat)
    (lt auth : AccountInfo) (ha : a.length = 4) (hb : b.length = 4) :
    scrubDisc (process_deactivate_lookup_table env program_id
        [{ lt with data := a ++ t }, auth])
      = scrubDisc (process_deactivate_lookup_table env program_id
        [{ lt with data := b ++ t }, auth]) := by
  simp only [process_deactivate_lookup_table]
  have eTag : authorityTag (a ++ t) = authorityTag (b ++ t) := by
    unfold authorityTag readLE
    rw [drop_append4 a t ha 21 (by norm_num), drop_append4 b t hb 21 (by norm_num)]
  have eAuth : metaAuthority (a ++ t) = metaAuthority (b ++ t) := by
    unfold metaAuthority
    rw [drop_append4 a t ha 22 (by norm_num), drop_append4 b t hb 22 (by norm_num)]
  have eDe : deactivationSlot (a ++ t) = deactivationSlot (b ++ t) := by
    unfold deactivationSlot readLE
    rw [drop_append4 a t ha 4 (by norm_num), drop_append4 b t hb 4 (by norm_num)]
  rw [eTag, eAuth, eDe]
  by_cases c1 : lt.owner ≠ program_id
  · simp only [if_pos c1]
  simp only [if_neg c1]
  by_cases c2 : (!auth.is_signer) = true
  · simp only [if_pos c2]
  simp only [if_neg c2]
  by_cases c3 : authorityTag (b ++ t) = 0
  · simp only [if_pos c3]
  simp only [if_neg c3]
  by_cases c4 : metaAuthority (b ++ t) ≠ auth.key
  · simp only [if_pos c4]
  simp only [if_neg c4]
  by_cases c5 : deactivationSlot (b ++ t) ≠ U64_MAX
  · simp only [if_pos c5]
  simp only [if_neg c5]
  rw [writeBytes_append4 a t (natToLE env.clock 8) ha 4 (by norm_num),
    writeBytes_append4 b t (natToLE env.clock 8) hb 4 (by norm_num)]
  simp only [scrubDisc, drop4_exact a _ ha, drop4_exact b _ hb]

theorem discClose_scrub (env : Env) (program_id : List Nat) (a b t : List Nat)
    (lt auth recipient shacc : AccountInfo) (ha : a.length = 4) (hb : b.length = 4) :
    scrubDisc (process_close_lookup_table env program_id
        [{ lt with data := a ++ t }, auth, recipient, shacc])
      = scrubDisc (process_close_lookup_table env program_id
        [{ lt with data := b ++ t }, auth, recipient, shacc]) := by
  simp only [process_close_lookup_table]
  have eTag : authorityTag (a ++ t) = authorityTag (b ++ t) := by
    unfold authorityTag readLE
    rw [drop_append4 a t ha 21 (by norm_num), drop_append4 b t hb 21 (by norm_num)]
  have eAuth : metaAuthority (a ++ t) = metaAuthority (b ++ t) := by
    unfold metaAuthority
    rw [drop_append4 a t ha 22 (by norm_num), drop_append4 b t hb 22 (by norm_num)]
  have eDe : deactivationSlot (a ++ t) = deactivationSlot (b ++ t) := by
    unfold deactivationSlot readLE
    rw [drop_append4 a t ha 4 (by norm_num), drop_append4 b t hb 4 (by norm_num)]
  have eRz : resizeData (a ++ t) 0 = resizeData (b ++ t) 0 := by
    simp [resizeData]
  rw [eTag, eAuth, eDe]
  by_cases c1 : lt.owner ≠ program_id
  · simp only [if_pos c1]
  simp only [if_neg c1]
  by_cases c2 : (!auth.is_signer) = true
  · simp only [if_pos c2]
  simp only [if_neg c2]
  by_cases c3 : lt.key = recipient.key
  · simp only [if_pos c3]
  simp only [if_neg c3]
  by_cases c4 : authorityTag (b ++ t) = 0
  · simp only [if_pos c4]
  simp only [if_neg c4]
  by_cases c5 : metaAuthority (b ++ t) ≠ auth.key
  · simp only [if_pos c5]
  simp only [if_neg c5]
  by_cases c6 : deactivationSlot (b ++ t) = U64_MAX
  · simp only [if_pos c6]
  simp only [if_neg c6]
  by_cases c7 : deactivationSlot (b ++ t) = env.clock
  · simp only [if_pos c7]
  simp only [if_neg c7]
  by_cases c8 : shacc.key ≠ SLOTHASHES_ID
  · simp only [if_pos c8]
  simp only [if_neg c8]
  by_cases c9 : (slotPosition env.slotHashes (deactivationSlot (b ++ t))).isSome = true
  · simp only [if_pos c9]
  simp only [if_neg c9]
  rcases hCA : checkedAdd lt.lamports recipient.lamports with _ | nl
  · rfl
  dsimp only
  by_cases c10 : (!recipient.is_writable) = true
  · simp only [if_pos c10]
  simp only [if_neg c10]
  by_cases c11 : (!lt.is_writable) = true
  · simp only [if_pos c11]
  simp only [if_neg c11]
  rw [eRz]

theorem discExtend_scrub (env : Env) (program_id : List Nat) (a b t : List Nat)
    (lt auth payer sys : AccountInfo) (new_addresses : List Nat)
    (ha : a.length = 4) (hb : b.length = 4) :
    scrubDisc (process_extend_lookup_table env program_id
        [{ lt with data := a ++ t }, auth, payer, sys] new_addresses)
      = scrubDisc (process_extend_lookup_table env program_id
        [{ lt with data := b ++ t }, auth, payer, sys] new_addresses) := by
  simp only [process_extend_lookup_table, LOOKUP_TABLE_META_SIZE, PUBKEY_BYTES,
    LOOKUP_TABLE_MAX_ADDRESSES]
  have eTag : authorityTag (a ++ t) = authorityTag (b ++ t) := by
    unfold authorityTag readLE
    rw [drop_append4 a t ha 21 (by norm_num), drop_append4 b t hb 21 (by norm_num)]
  have eAuth : metaAuthority (a ++ t) = metaAuthority (b ++ t) := by
    unfold metaAuthority
    rw [drop_append4 a t ha 22 (by norm_num), drop_append4 b t hb 22 (by norm_num)]
  have eDe : deactivationSlot (a ++ t) = deactivationSlot (b ++ t) := by
    unfold deactivationSlot readLE
    rw [drop_append4 a t ha 4 (by norm_num), drop_append4 b t hb 4 (by norm_num)]
  have eLast : lastExtendedSlot (a ++ t) = lastExtendedSlot (b ++ t) := by
    unfold lastExtendedSlot readLE
    rw [drop_append4 a t ha 12 (by norm_num), drop_append4 b t hb 12 (by norm_num)]
  have eLen : (a ++ t).length = (b ++ t).length := by simp [ha, hb]
  rw [eTag, eAuth, eDe, eLast, eLen]
  have eData : ∀ n offset : Nat, 4 ≤ n → 4 ≤ offset →
      (writeBytes (resizeData (if env.clock ≠ lastExtendedSlot (b ++ t) then
          writeBytes (writeBytes (a ++ t) 12 (natToLE env.clock 8)) 20 [wrapSub (b ++ t).length 56 / 32 % 256]
        else (a ++ t)) n) offset new_addresses).drop 4
        = (writeBytes (resizeData (if env.clock ≠ lastExtendedSlot (b ++ t) then
          writeBytes (writeBytes (b ++ t) 12 (natToLE env.clock 8)) 20 [wrapSub (b ++ t).length 56 / 32 % 256]
        else (b ++ t)) n) offset new_addresses).drop 4 := by
    intro n offset h4 ho4
    by_cases hc : env.clock ≠ lastExtendedSlot (b ++ t)
    · simp only [if_pos hc]
      rw [writeBytes_append4 a t (natToLE env.clock 8) ha 12 (by norm_num),
        writeBytes_append4 b t (natToLE env.clock 8) hb 12 (by norm_num),
        writeBytes_append4 a _ _ ha 20 (by norm_num),
        writeBytes_append4 b _ _ hb 20 (by norm_num),
        resizeData_append4 a _ ha n h4, resizeData_append4 b _ hb n h4,
        writeBytes_append4 a _ new_addresses ha offset ho4,
        writeBytes_append4 b _ new_addresses hb offset ho4,
        drop4_exact a _ ha, drop4_exact b _ hb]
    · simp only [if_neg hc]
      rw [resizeData_append4 a t ha n h4, resizeData_append4 b t hb n h4,
        writeBytes_append4 a _ new_addresses ha offset ho4,
        writeBytes_append4 b _ new_addresses hb offset ho4,
        drop4_exact a _ ha, drop4_exact b _ hb]
  by_cases c1 : lt.owner ≠ program_id
  · simp only [if_pos c1]
  simp only [if_neg c1]
  by_cases c2 : (!auth.is_signer) = true
  · simp only [if_pos c2]
  simp only [if_neg c2]
  by_cases c3 : authorityTag (b ++ t) = 0
  · simp only [if_pos c3]
  simp only [if_neg c3]
  by_cases c4 : metaAuthority (b ++ t) ≠ auth.key
  · simp only [if_pos c4]
  simp only [if_neg c4]
  by_cases c5 : deactivationSlot (b ++ t) ≠ U64_MAX
  · simp only [if_pos c5]
  simp only [if_neg c5]
  by_cases c6 : wrapSub (b ++ t).length 56 / 32 ≥ 256
  · simp only [if_pos c6]
  simp only [if_neg c6]
  by_cases c7 : new_addresses.isEmpty = true
  · simp only [if_pos c7]
  simp only [if_neg c7]
  by_cases c8 : satAdd (wrapSub (b ++ t).length 56 / 32) (new_addresses.length / 32) > 256
  · simp only [if_pos c8]
  simp only [if_neg c8]
  rcases hN : checkedAdd 56 (satMul (satAdd (wrapSub (b ++ t).length 56 / 32) (new_addresses.length / 32)) 32)
    with _ | n
  · rfl
  dsimp only
  have h4n : 4 ≤ n := by
    unfold checkedAdd USIZE_MOD at hN
    split at hN
    · injection hN with hNe
      omega
    · exact Option.noConfusion hN
  by_cases c9 : (!lt.is_writable) = true
  · simp only [if_pos c9]
  simp only [if_neg c9]
  rcases hF : checkedAdd 56 (satMul (wrapSub (b ++ t).length 56 / 32) 32) with _ | offset
  · rfl
  dsimp only
  have h4o : 4 ≤ offset := by
    unfold checkedAdd USIZE_MOD at hF
    split at hF
    · injection hF with hFe
      omega
    · exact Option.noConfusion hF
  simp only [resizeData_length]
  by_cases cOff : offset ≥ n
  · simp only [if_pos cOff]
  simp only [if_neg cOff]
  by_cases cCopy : n - offset ≠ new_addresses.length
  · simp only [if_pos cCopy]
  simp only [if_neg cCopy]
  by_cases cReq : env.minimum_balance n ⊔ 1 - lt.lamports > 0
  · simp only [if_pos cReq]
    by_cases cP : (!payer.is_signer) = true
    · simp only [if_pos cP]
    simp only [if_neg cP]
    simp only [cpiTransfer]
    by_cases cF : env.minimum_balance n ⊔ 1 - lt.lamports ≤ payer.lamports
    · simp only [if_pos cF]
      simp only [scrubDisc]
      rw [eData n offset h4n h4o]
    · simp only [if_neg cF]
  · simp only [if_neg cReq]
    simp only [scrubDisc]
    rw [eData n offset h4n h4o]

theorem discFreeze_take4 (program_id : List Nat) (a t : List Nat) (lt auth : AccountInfo)
    (ha : a.length = 4) :
    ∀ res, process_freeze_lookup_table program_id [{ lt with data := a ++ t }, auth]
        = .ok res →
      ∃ u rest, res = u :: rest ∧ u.data.take 4 = a := by
  intro res h
  simp only [process_freeze_lookup_table, LOOKUP_TABLE_META_SIZE] at h
  by_cases c1 : lt.owner ≠ program_id
  · rw [if_pos c1] at h
    exact PResult.noConfusion h
  rw [if_neg c1] at h
  by_cases c2 : (!auth.is_signer) = true
  · rw [if_pos c2] at h
    exact PResult.noConfusion h
  rw [if_neg c2] at h
  by_cases c3 : authorityTag (a ++ t) = 0
  · rw [if_pos c3] at h
    exact PResult.noConfusion h
  rw [if_neg c3] at h
  by_cases c4 : metaAuthority (a ++ t) ≠ auth.key
  · rw [if_pos c4] at h
    exact PResult.noConfusion h
  rw [if_neg c4] at h
  by_cases c5 : deactivationSlot (a ++ t) ≠ U64_MAX
  · rw [if_pos c5] at h
    exact PResult.noConfusion h
  rw [if_neg c5] at h
  by_cases c6 : (a ++ t).length ≤ 56 ∨ ((a ++ t).drop 56).isEmpty = true
  · rw [if_pos c6] at h
    exact PResult.noConfusion h
  rw [if_neg c6] at h
  injection h with hres
  refine ⟨_, _, hres.symm, ?_⟩
  show (writeBytes (writeBytes (a ++ t) 21 [0]) 22 (List.replicate 32 0)).take 4 = a
  rw [writeBytes_append4 a t [0] ha 21 (by norm_num),
    writeBytes_append4 a _ (List.replicate 32 0) ha 22 (by norm_num),
    take4_exact a _ ha]

theorem discDeactivate_take4 (env : Env) (program_id : List Nat) (a t : List Nat)
    (lt auth : AccountInfo) (ha : a.length = 4) :
    ∀ res, process_deactivate_lookup_table env program_id [{ lt with data := a ++ t }, auth]
        = .ok res →
      ∃ u rest, res = u :: rest ∧ u.data.take 4 = a := by
  intro res h
  simp only [process_deactivate_lookup_table] at h
  by_cases c1 : lt.owner ≠ program_id
  · rw [if_pos c1] at h
    exact PResult.noConfusion h
  rw [if_neg c1] at h
  by_cases c2 : (!auth.is_signer) = true
  · rw [if_pos c2] at h
    exact PResult.noConfusion h
  rw [if_neg c2] at h
  by_cases c3 : authorityTag (a ++ t) = 0
  · rw [if_pos c3] at h
    exact PResult.noConfusion h
  rw [if_neg c3] at h
  by_cases c4 : metaAuthority (a ++ t) ≠ auth.key
  · rw [if_pos c4] at h
    exact PResult.noConfusion h
  rw [if_neg c4] at h
  by_cases c5 : deactivationSlot (a ++ t) ≠ U64_MAX
  · rw [if_pos c5] at h
    exact PResult.noConfusion h
  rw [if_neg c5] at h
  injection h with hres
  refine ⟨_, _, hres.symm, ?_⟩
  show (writeBytes (a ++ t) 4 (natToLE env.clock 8)).take 4 = a
  rw [writeBytes_append4 a t (natToLE env.clock 8) ha 4 (by norm_num), take4_exact a _ ha]

theorem discClose_empties (env : Env) (program_id : List Nat) (a t : List Nat)
    (lt auth recipient shacc : AccountInfo) (ha : a.length = 4) :
    ∀ res, process_close_lookup_table env program_id
        [{ lt with data := a ++ t }, auth, recipient, shacc] = .ok res →
      ∃ u rest, res = u :: rest ∧ u.data = [] := by
  intro res h
  simp only [process_close_lookup_table] at h
  by_cases c1 : lt.owner ≠ program_id
  · rw [if_pos c1] at h
    exact PResult.noConfusion h
  rw [if_neg c1] at h
  by_cases c2 : (!auth.is_signer) = true
  · rw [if_pos c2] at h
    exact PResult.noConfusion h
  rw [if_neg c2] at h
  by_cases c3 : lt.key = recipient.key
  · rw [if_pos c3] at h
    exact PResult.noConfusion h
  rw [if_neg c3] at h
  by_cases c4 : authorityTag (a ++ t) = 0
  · rw [if_pos c4] at h
    exact PResult.noConfusion h
  rw [if_neg c4] at h
  by_cases c5 : metaAuthority (a ++ t) ≠ auth.key
  · rw [if_pos c5] at h
    exact PResult.noConfusion h
  rw [if_neg c5] at h
  by_cases c6 : deactivationSlot (a ++ t) = U64_MAX
  · rw [if_pos c6] at h
    exact PResult.noConfusion h
  rw [if_neg c6] at h
  by_cases c7 : deactivationSlot (a ++ t) = env.clock
  · rw [if_pos c7] at h
    exact PResult.noConfusion h
  rw [if_neg c7] at h
  by_cases c8 : shacc.key ≠ SLOTHASHES_ID
  · rw [if_pos c8] at h
    exact PResult.noConfusion h
  rw [if_neg c8] at h
  by_cases c9 : (slotPosition env.slotHashes (deactivationSlot (a ++ t))).isSome = true
  · rw [if_pos c9] at h
    exact PResult.noConfusion h
  rw [if_neg c9] at h
  rcases hCA : checkedAdd lt.lamports recipient.lamports with _ | nl
  · rw [hCA] at h
    exact PResult.noConfusion h
  rw [hCA] at h
  dsimp only at h
  by_cases c10 : (!recipient.is_writable) = true
  · rw [if_pos c10] at h
    exact PResult.noConfusion h
  rw [if_neg c10] at h
  by_cases c11 : (!lt.is_writable) = true
  · rw [if_pos c11] at h
    exact PResult.noConfusion h
  rw [if_neg c11] at h
  injection h with hres
  refine ⟨_, _, hres.symm, ?_⟩
  show resizeData (a ++ t) 0 = []
  simp [resizeData]

theorem discExtend_take4 (env : Env) (program_id : List Nat) (a t : List Nat)
    (lt auth payer sys : AccountInfo) (new_addresses : List Nat)
    (ha : a.length = 4) :
    ∀ res, process_extend_lookup_table env program_id
        [{ lt with data := a ++ t }, auth, payer, sys] new_addresses = .ok res →
      ∃ u rest, res = u :: rest ∧ u.data.take 4 = a := by
  intro res h
  simp only [process_extend_lookup_table, LOOKUP_TABLE_META_SIZE, PUBKEY_BYTES,
    LOOKUP_TABLE_MAX_ADDRESSES] at h
  have eTake : ∀ n offset : Nat, 4 ≤ n → 4 ≤ offset →
      (writeBytes (resizeData (if env.clock ≠ lastExtendedSlot (a ++ t) then
          writeBytes (writeBytes (a ++ t) 12 (natToLE env.clock 8)) 20 [wrapSub (a ++ t).length 56 / 32 % 256]
        else (a ++ t)) n) offset new_addresses).take 4 = a := by
    intro n offset h4 ho4
    by_cases hc : env.clock ≠ lastExtendedSlot (a ++ t)
    · simp only [if_pos hc]
      rw [writeBytes_append4 a t (natToLE env.clock 8) ha 12 (by norm_num),
        writeBytes_append4 a _ _ ha 20 (by norm_num),
        resizeData_append4 a _ ha n h4,
        writeBytes_append4 a _ new_addresses ha offset ho4,
        take4_exact a _ ha]
    · simp only [if_neg hc]
      rw [resizeData_append4 a t ha n h4,
        writeBytes_append4 a _ new_addresses ha offset ho4,
        take4_exact a _ ha]
  by_cases c1 : lt.owner ≠ program_id
  · rw [if_pos c1] at h
    exact PResult.noConfusion h
  rw [if_neg c1] at h
  by_cases c2 : (!auth.is_signer) = true
  · rw [if_pos c2] at h
    exact PResult.noConfusion h
  rw [if_neg c2] at h
  by_cases c3 : authorityTag (a ++ t) = 0
  · rw [if_pos c3] at h
    exact PResult.noConfusion h
  rw [if_neg c3] at h
  by_cases c4 : metaAuthority (a ++ t) ≠ auth.key
  · rw [if_pos c4] at h
    exact PResult.noConfusion h
  rw [if_neg c4] at h
  by_cases c5 : deactivationSlot (a ++ t) ≠ U64_MAX
  · rw [if_pos c5] at h
    exact PResult.noConfusion h
  rw [if_neg c5] at h
  by_cases c6 : wrapSub (a ++ t).length 56 / 32 ≥ 256
  · rw [if_pos c6] at h
    exact PResult.noConfusion h
  rw [if_neg c6] at h
  by_cases c7 : new_addresses.isEmpty = true
  · rw [if_pos c7] at h
    exact PResult.noConfusion h
  rw [if_neg c7] at h
  by_cases c8 : satAdd (wrapSub (a ++ t).length 56 / 32) (new_addresses.length / 32) > 256
  · rw [if_pos c8] at h
    exact PResult.noConfusion h
  rw [if_neg c8] at h
  rcases hN : checkedAdd 56 (satMul (satAdd (wrapSub (a ++ t).length 56 / 32) (new_addresses.length / 32)) 32)
    with _ | n
  · rw [hN] at h
    exact PResult.noConfusion h
  rw [hN] at h
  dsimp only at h
  have h4n : 4 ≤ n := by
    unfold checkedAdd USIZE_MOD at hN
    split at hN
    · injection hN with hNe
      omega
    · exact Option.noConfusion hN
  by_cases c9 : (!lt.is_writable) = true
  · rw [if_pos c9] at h
    exact PResult.noConfusion h
  rw [if_neg c9] at h
  rcases hF : checkedAdd 56 (satMul (wrapSub (a ++ t).length 56 / 32) 32) with _ | offset
  · rw [hF] at h
    exact PResult.noConfusion h
  rw [hF] at h
  dsimp only at h
  have h4o : 4 ≤ offset := by
    unfold checkedAdd USIZE_MOD at hF
    split at hF
    · injection hF with hFe
      omega
    · exact Option.noConfusion hF
  simp only [resizeData_length] at h
  by_cases cOff : offset ≥ n
  · rw [if_pos cOff] at h
    exact PResult.noConfusion h
  rw [if_neg cOff] at h
  by_cases cCopy : n - offset ≠ new_addresses.length
  · rw [if_pos cCopy] at h
    exact PResult.noConfusion h
  rw [if_neg cCopy] at h
  by_cases cReq : env.minimum_balance n ⊔ 1 - lt.lamports > 0
  · rw [if_pos cReq] at h
    by_cases cP : (!payer.is_signer) = true
    · rw [if_pos cP] at h
      exact PResult.noConfusion h
    rw [if_neg cP] at h
    simp only [cpiTransfer] at h
    by_cases cF : env.minimum_balance n ⊔ 1 - lt.lamports ≤ payer.lamports
    · rw [if_pos cF] at h
      dsimp only at h
      injection h with hres
      refine ⟨_, _, hres.symm, ?_⟩
      exact eTake n offset h4n h4o
    · rw [if_neg cF] at h
      dsimp only at h
      exact PResult.noConfusion h
  · rw [if_neg cReq] at h
    injection h with hres
    refine ⟨_, _, hres.symm, ?_⟩
    exact eTake n offset h4n h4o

/-- C10: none of Freeze, Extend, Deactivate or Close depends on the
4-byte discriminator at offset 0: for two records identical except in
bytes 0..4, each handler produces the same outcome and the same effect
on every byte beyond offset 4 (captured by equality after erasing
bytes 0..4 of the result), and on success the discriminator bytes are
left unchanged (Close empties the record entirely). -/
theorem handlers_ignore_discriminator (env : Env) (program_id : List Nat)
    (a b t : List Nat) (lt auth payer sys recipient shacc : AccountInfo)
    (new_addresses : List Nat) (ha : a.length = 4) (hb : b.length = 4) :
    (scrubDisc (process_freeze_lookup_table program_id [{ lt with data := a ++ t }, auth])
      = scrubDisc (process_freeze_lookup_table program_id
          [{ lt with data := b ++ t }, auth])) ∧
    (scrubDisc (process_extend_lookup_table env program_id
        [{ lt with data := a ++ t }, auth, payer, sys] new_addresses)
      = scrubDisc (process_extend_lookup_table env program_id
        [{ lt with data := b ++ t }, auth, payer, sys] new_addresses)) ∧
    (scrubDisc (process_deactivate_lookup_table env program_id
        [{ lt with data := a ++ t }, auth])
      = scrubDisc (process_deactivate_lookup_table env program_id
        [{ lt with data := b ++ t }, auth])) ∧
    (scrubDisc (process_close_lookup_table env program_id
        [{ lt with data := a ++ t }, auth, recipient, shacc])
      = scrubDisc (process_close_lookup_table env program_id
        [{ lt with data := b ++ t }, auth, recipient, shacc])) ∧
    (∀ res, process_freeze_lookup_table program_id [{ lt with data := a ++ t }, auth]
        = .ok res → ∃ u rest, res = u :: rest ∧ u.data.take 4 = a) ∧
    (∀ res, process_extend_lookup_table env program_id
        [{ lt with data := a ++ t }, auth, payer, sys] new_addresses = .ok res →
      ∃ u rest, res = u :: rest ∧ u.data.take 4 = a) ∧
    (∀ res, process_deactivate_lookup_table env program_id [{ lt with data := a ++ t }, auth]
        = .ok res → ∃ u rest, res = u :: rest ∧ u.data.take 4 = a) ∧
    (∀ res, process_close_lookup_table env program_id
        [{ lt with data := a ++ t }, auth, recipient, shacc] = .ok res →
      ∃ u rest, res = u :: rest ∧ u.data = []) :=
  ⟨discFreeze_scrub program_id a b t lt auth ha hb,
   discExtend_scrub env program_id a b t lt auth payer sys new_addresses ha hb,
   discDeactivate_scrub env program_id a b t lt auth ha hb,
   discClose_scrub env program_id a b t lt auth recipient shacc ha hb,
   discFreeze_take4 program_id a t lt auth ha,
   discExtend_take4 env program_id a t lt auth payer sys new_addresses ha,
   discDeactivate_take4 env program_id a t lt auth ha,
   discClose_empties env program_id a t lt auth recipient shacc ha⟩

/-- Witness for C10: discriminator 1 versus 0 on a concrete deactivating
one-authority table tail. -/
theorem handlers_ignore_discriminator_witness :
    (scrubDisc (process_freeze_lookup_table pidW [{ tableW 5 1 [] with data := ([1, 0, 0, 0] : List Nat) ++ tailW }, authW])
      = scrubDisc (process_freeze_lookup_table pidW
          [{ tableW 5 1 [] with data := ([0, 0, 0, 0] : List Nat) ++ tailW }, authW])) ∧
    (scrubDisc (process_extend_lookup_table envW pidW
        [{ tableW 5 1 [] with data := ([1, 0, 0, 0] : List Nat) ++ tailW }, authW, payerW, sysW] (List.replicate 32 42))
      = scrubDisc (process_extend_lookup_table envW pidW
        [{ tableW 5 1 [] with data := ([0, 0, 0, 0] : List Nat) ++ tailW }, authW, payerW, sysW] (List.replicate 32 42))) ∧
    (scrubDisc (process_deactivate_lookup_table envW pidW
        [{ tableW 5 1 [] with data := ([1, 0, 0, 0] : List Nat) ++ tailW }, authW])
      = scrubDisc (process_deactivate_lookup_table envW pidW
        [{ tableW 5 1 [] with data := ([0, 0, 0, 0] : List Nat) ++ tailW }, authW])) ∧
    (scrubDisc (process_close_lookup_table envW pidW
        [{ tableW 5 1 [] with data := ([1, 0, 0, 0] : List Nat) ++ tailW }, authW, recipW, shW])
      = scrubDisc (process_close_lookup_table envW pidW
        [{ tableW 5 1 [] with data := ([0, 0, 0, 0] : List Nat) ++ tailW }, authW, recipW, shW])) ∧
    (∀ res, process_freeze_lookup_table pidW [{ tableW 5 1 [] with data := ([1, 0, 0, 0] : List Nat) ++ tailW }, authW]
        = .ok res → ∃ u rest, res = u :: rest ∧ u.data.take 4 = ([1, 0, 0, 0] : List Nat)) ∧
    (∀ res, process_extend_lookup_table envW pidW
        [{ tableW 5 1 [] with data := ([1, 0, 0, 0] : List Nat) ++ tailW }, authW, payerW, sysW] (List.replicate 32 42) = .ok res →
      ∃ u rest, res = u :: rest ∧ u.data.take 4 = ([1, 0, 0, 0] : List Nat)) ∧
    (∀ res, process_deactivate_lookup_table envW pidW [{ tableW 5 1 [] with data := ([1, 0, 0, 0] : List Nat) ++ tailW }, authW]
        = .ok res → ∃ u rest, res = u :: rest ∧ u.data.take 4 = ([1, 0, 0, 0] : List Nat)) ∧
    (∀ res, process_close_lookup_table envW pidW
        [{ tableW 5 1 [] with data := ([1, 0, 0, 0] : List Nat) ++ tailW }, authW, recipW, shW] = .ok res →
      ∃ u rest, res = u :: rest ∧ u.data = []) :=
  handlers_ignore_discriminator envW pidW [1, 0, 0, 0] [0, 0, 0, 0] tailW
    (tableW 5 1 []) authW payerW sysW recipW shW (List.replicate 32 42)
    (by decide) (by decide)
